import Mathlib

/-!
Shallow embedding of the cholera simulation scripts (sim1.js, sim2.js,
sim5.js and the two unnamed variants, here called sim3 and sim4, found in
src/unnamed/part_000).  Numeric state is embedded over `ℚ` (the source
computes with JS numbers; every constant in the source is an exact decimal
so the exact-arithmetic reading is faithful), booleans over `Bool`,
location labels over `String` as in the source `switch` statements.

Two irrational ingredients of the source are abstracted by parameters:

* the non-arrival movement step `agent.x += (dx/distance)*speed` divides by
  `Math.hypot dx dy`; theorems about flags and arrival events do not depend
  on the in-transit position, so the stepped position is supplied by an
  arbitrary function parameter `move`, while the arrival test
  `distance < speed` is embedded exactly as
  `0 < speed ∧ dx^2 + dy^2 < speed^2` (equivalent over the reals since
  `hypot dx dy ≥ 0`);
* sim5's initial agent layout uses `Math.cos`/`Math.sin`, so the initial
  positions are a function parameter `pos` of the sim5 initial state.
-/

namespace Cholera

/-- Translated from the `timeManager` objects of sim2/sim4/sim5
(fields in source order: `scheduleStartTime`, `currentSimulationTime`,
`timeScale`, `currentDay`). -/
structure TimeManager where
  scheduleStartTime : ℚ
  currentSimulationTime : ℚ
  timeScale : ℚ
  currentDay : ℤ
  deriving Repr, DecidableEq

/-- JavaScript's `%` operator on integers: truncated remainder. -/
def jsRem (a b : ℤ) : ℤ := Int.tmod a b

/-- Translated from `getCurrentHour` (identical in sim2, sim4, sim5):
`Math.floor(currentSimulationTime * timeScale + scheduleStartTime) % 24`. -/
def getCurrentHour (tm : TimeManager) : ℤ :=
  jsRem ⌊tm.currentSimulationTime * tm.timeScale + tm.scheduleStartTime⌋ 24

/-- Translated from `getCurrentDay` of sim4/sim5:
`Math.ceil((totalHours + scheduleStartTime) / 24)`.  (sim2 uses `floor`
instead; only the sim4/sim5 variant is needed below.) -/
def getCurrentDay (tm : TimeManager) : ℤ :=
  ⌈(tm.currentSimulationTime * tm.timeScale + tm.scheduleStartTime) / 24⌉

/-- Translated from `updateTimeManager` (sim2/sim4/sim5):
`currentSimulationTime += deltaTime / 1000; currentDay = getCurrentDay(...)`. -/
def updateTimeManager (tm : TimeManager) (deltaTime : ℚ) : TimeManager :=
  let t := tm.currentSimulationTime + deltaTime / 1000
  { tm with currentSimulationTime := t,
            currentDay := getCurrentDay { tm with currentSimulationTime := t } }

/-- Translated from `resetTimeManager` (sim2/sim4/sim5). -/
def resetTimeManager (tm : TimeManager) : TimeManager :=
  { tm with currentSimulationTime := 0, currentDay := 0 }

/-- Source constant `houseInfectionDelay = 1500` (milliseconds), identical
in sim1, sim2, sim3 and sim4. -/
def houseInfectionDelay : ℚ := 1500

/-- The per-index slice of the house infection state: the mutable fields of
`houseWaterBodies[i]` (`isContaminated`, `contaminatedTime`) together with
`houses[i].isInfected` (called `houseInfected` here).  In sim1 this is the
single `houseWaterBody`/`house` pair. -/
structure HouseCell where
  isContaminated : Bool
  contaminatedTime : ℚ
  houseInfected : Bool
  deriving Repr, DecidableEq

instance : Inhabited HouseCell := ⟨⟨false, 0, false⟩⟩

/-- Translated from the body of `updateHouseInfectionState` (sim1 lines
192-202; the sim2/sim3/sim4 versions run this same body per array index):
while the water body is contaminated and the house not yet infected, the
tick's `deltaTime` is accumulated and the house becomes infected once the
accumulator reaches `houseInfectionDelay`. -/
def updateHouseInfectionState (deltaTime : ℚ) (c : HouseCell) : HouseCell :=
  if c.isContaminated && !c.houseInfected then
    let t := c.contaminatedTime + deltaTime
    { c with contaminatedTime := t,
             houseInfected := decide (houseInfectionDelay ≤ t) }
  else c

/-- Mutable fields of the `schoolWaterBody` object of sim2/sim4
(`isContaminated`, `infectedVisitCount`, `contaminationThreshold`). -/
structure SchoolWaterBody where
  isContaminated : Bool
  infectedVisitCount : ℕ
  contaminationThreshold : ℕ
  deriving Repr, DecidableEq

/-- Translated from `contaminateSchoolWaterbody` of sim2/sim4: an arrival
event at the school water body by an agent with infection flag
`agentInfected` increments the visit counter while the body is still
uncontaminated, and contaminates it once the counter reaches the
threshold. -/
def contaminateSchoolWaterbody (targetLocationInput : String)
    (agentInfected : Bool) (sw : SchoolWaterBody) : SchoolWaterBody :=
  if targetLocationInput = ("schoolWater") ∧ agentInfected = true ∧
      sw.isContaminated = false then
    let cnt := sw.infectedVisitCount + 1
    if sw.contaminationThreshold ≤ cnt then
      { sw with infectedVisitCount := cnt, isContaminated := true }
    else
      { sw with infectedVisitCount := cnt }
  else sw

/-- Translated from `checkAgentInfection` (identical logic in sim1, sim2,
sim3, sim4): the agent's infection flag after arriving at location
`targetLocationInput` while the school water body's contamination flag is
`schoolContaminated`. -/
def checkAgentInfection (targetLocationInput : String)
    (schoolContaminated : Bool) (agentInfected : Bool) : Bool :=
  if targetLocationInput = ("schoolWater") ∧ schoolContaminated = true then
    true
  else agentInfected

/-- Folding `contaminateSchoolWaterbody` over the school-water arrival
events of a run; each event is the arriving agent's infection flag. -/
def schoolWaterRun (sw : SchoolWaterBody) (events : List Bool) :
    SchoolWaterBody :=
  events.foldl
    (fun s inf => contaminateSchoolWaterbody ("schoolWater") inf s) sw

/-- Folding `updateHouseInfectionState` over the per-tick `deltaTime`
values of a run. -/
def houseRun (c : HouseCell) (ds : List ℚ) : HouseCell :=
  ds.foldl (fun c d => updateHouseInfectionState d c) c

/-! ## sim1: single agent, single house, itinerary-driven movement -/

/-- Global simulation state of sim1: the `agent` object (position, speed,
`stepIndex`, `isInfected`), the `house`/`houseWaterBody` pair (as a
`HouseCell`) and the `schoolWaterBody.isContaminated` flag.  The fixed
coordinates (house `(100,100)`, school `(300,200)`, water bodies at
`(40,100)` and `(300,260)`) live in `resolveItinerary` below. -/
structure Sim1State where
  agentX : ℚ
  agentY : ℚ
  agentSpeed : ℚ
  stepIndex : ℕ
  agentInfected : Bool
  houseCell : HouseCell
  schoolWaterContaminated : Bool
  deriving Repr, DecidableEq

/-- The `agent.itinerary` array of sim1 (and sim3). -/
def itinerary1 : List String :=
  [("school"), ("schoolWater"), ("school"), ("house"), ("houseWater"),
   ("house")]

/-- Translated from sim1's `resolveItinerary`: canvas is 600x400, school at
`(300, 200)`, school water at `(300, 260)`, house at `(100, 100)`, house
water at `(100-60, 100)`; unknown labels fall through to the school
coordinates (`default` branch of the `switch`). -/
def resolveItinerary (labelInput : String) : ℚ × ℚ :=
  if labelInput = ("school") then (300, 200)
  else if labelInput = ("schoolWater") then (300, 260)
  else if labelInput = ("house") then (100, 100)
  else if labelInput = ("houseWater") then (40, 100)
  else (300, 200)

/-- A movement oracle: given current position, target position and speed,
the position after the non-arrival step `(dx/distance)*speed`.  The exact
value involves `Math.hypot` and is irrational in general, so theorems are
stated for every such function. -/
def MoveFun : Type := ℚ × ℚ → ℚ × ℚ → ℚ → ℚ × ℚ

/-- A concrete movement oracle used only to instantiate universally
quantified theorems on concrete states. -/
def moveId : MoveFun := fun p _ _ => p

/-- Translated from sim1's `checkAgentInfection` call site (the flag
update applied to the single agent). -/
def checkAgentInfection1 (label : String) (s : Sim1State) : Sim1State :=
  { s with agentInfected :=
      checkAgentInfection label s.schoolWaterContaminated s.agentInfected }

/-- Translated from sim1's `checkHouseWaterContamination`: an infected
agent arriving at `houseWater` contaminates the house water body and
resets its contamination timer to zero. -/
def checkHouseWaterContamination1 (label : String) (s : Sim1State) :
    Sim1State :=
  if label = ("houseWater") ∧ s.agentInfected = true then
    { s with houseCell := { s.houseCell with isContaminated := true,
                                             contaminatedTime := 0 } }
  else s

/-- Translated from sim1's `updateAgentMovement`: resolve the current
itinerary label, snap-and-advance when `distance < speed` (running the
arrival rule checks), otherwise take the normalized step (supplied by the
oracle `move`). -/
def updateAgentMovement1 (move : MoveFun) (s : Sim1State) : Sim1State :=
  let label := itinerary1.getD s.stepIndex ("")
  let t := resolveItinerary label
  let dx := t.1 - s.agentX
  let dy := t.2 - s.agentY
  if 0 < s.agentSpeed ∧ dx ^ 2 + dy ^ 2 < s.agentSpeed ^ 2 then
    let s1 := { s with agentX := t.1, agentY := t.2 }
    let s2 := checkAgentInfection1 label s1
    let s3 := checkHouseWaterContamination1 label s2
    { s3 with stepIndex := (s3.stepIndex + 1) % itinerary1.length }
  else
    let p := move (s.agentX, s.agentY) t s.agentSpeed
    { s with agentX := p.1, agentY := p.2 }

/-- One frame of sim1's `animate`: `updateAgentMovement()` then
`updateHouseInfectionState(deltaTime)` (drawing has no state effect). -/
def tick1 (move : MoveFun) (deltaTime : ℚ) (s : Sim1State) : Sim1State :=
  let s1 := updateAgentMovement1 move s
  { s1 with houseCell := updateHouseInfectionState deltaTime s1.houseCell }

/-- The state of sim1 at first load: agent at `(house.x+10, house.y+10)`
with speed `1.5`, everything clean. -/
def initialSim1State : Sim1State :=
  { agentX := 110, agentY := 110, agentSpeed := 3 / 2, stepIndex := 0,
    agentInfected := false, houseCell := ⟨false, 0, false⟩,
    schoolWaterContaminated := false }

/-- Translated from sim1's `resetSimulation` (state-mutating lines only):
agent back to `(house.x+10, house.y+10)`, `stepIndex = 0`, infection and
contamination flags cleared.  The source then executes
`houseWaterBody.contaminationTime = 0`, which writes a previously
non-existent property (`contaminatedTime` is the field every other line of
the file uses), so the contamination-time accumulator is left unchanged;
the model therefore keeps `contaminatedTime` as it was. -/
def resetSimulation1 (s : Sim1State) : Sim1State :=
  let cell :=
    { s.houseCell with isContaminated := false, houseInfected := false }
  { s with agentX := 110, agentY := 110, stepIndex := 0,
           agentInfected := false,
           schoolWaterContaminated := false,
           houseCell := cell }

/-! ## sim4: multiple agents, schedules and bathroom visits
(the second script in src/unnamed/part_000) -/

/-- Translated from sim4's agent objects.  `houseId` equals the agent's
index in the `agents` array and is kept implicit.  Bathroom hours are `ℤ`
(the source draws them from fixed integer slot lists). -/
structure Agent4 where
  x : ℚ
  y : ℚ
  speed : ℚ
  currentLocation : String
  targetLocation : String
  isInfected : Bool
  isActive : Bool
  isAtSchool : Bool
  schoolBathroomHour : ℤ
  houseBathroomHour : ℤ
  hasVisitedSchoolBathroomToday : Bool
  hasVisitedHouseBathroomToday : Bool
  isTravelingToBathroom : Bool
  deriving Repr, DecidableEq

instance : Inhabited Agent4 :=
  ⟨⟨0, 0, 0, ("house"), ("house"), false, false, false, 0, 0, false, false,
    false⟩⟩

/-- Global state of sim4: time manager, `previousDay`, the `agents` array,
the `schoolWaterBody`, and the per-index `houseWaterBodies[i]`/`houses[i]`
slices as `HouseCell`s. -/
structure Sim4State where
  timeManager : TimeManager
  previousDay : ℤ
  agents : List Agent4
  schoolWaterBody : SchoolWaterBody
  houseCells : List HouseCell
  deriving Repr, DecidableEq

/-- The `housePosition` array (shared by sim2, sim3 and sim4). -/
def housePosition : List (ℚ × ℚ) :=
  [(150, 100), (450, 300), (450, 100), (150, 300), (500, 200), (100, 200),
   (375, 40), (225, 360), (375, 360), (225, 40)]

/-- Coordinates of `houseWaterBodies[i]`: offset 60 to the right of the
house when `house.x > canvas.width/2 = 300`, else 60 to the left. -/
def houseWaterPosition (i : ℕ) : ℚ × ℚ :=
  let p := housePosition.getD i (0, 0)
  (if 300 < p.1 then p.1 + 60 else p.1 - 60, p.2)

/-- Translated from sim4's `resolveItinerary(labelInput, agentIndex)`:
school `(300,200)`, school water `(300,260)`, house and house water from
the per-index tables; unknown labels default to the school coordinates.
(The source indexes `houses[agentIndex]` directly and always in range; out
of range the model returns `(0,0)`.) -/
def resolveItinerary4 (labelInput : String) (agentIndex : ℕ) : ℚ × ℚ :=
  if labelInput = ("school") then (300, 200)
  else if labelInput = ("schoolWater") then (300, 260)
  else if labelInput = ("house") then housePosition.getD agentIndex (0, 0)
  else if labelInput = ("houseWater") then houseWaterPosition agentIndex
  else (300, 200)

/-- Translated from `getCurrentScheduleMode` (sim2/sim4): school between
`scheduleConfig.schoolStart = 8` (inclusive) and `schoolEnd = 17`
(exclusive), house otherwise. -/
def getCurrentScheduleMode (currentHour : ℤ) : String :=
  if 8 ≤ currentHour ∧ currentHour < 17 then ("school") else ("house")

/-- Translated from `getAgentTargetLocation` (sim2/sim4): inactive agents
are routed home (without touching `isAtSchool`); otherwise the schedule
mode is returned and `isAtSchool` updated.  Returns the updated agent and
the target label. -/
def getAgentTargetLocation (currentHour : ℤ) (a : Agent4) :
    Agent4 × String :=
  if a.isActive = false then (a, ("house"))
  else
    let t := getCurrentScheduleMode currentHour
    ({ a with isAtSchool := t = ("school") }, t)

/-- Translated from sim4's `shouldVisitBathroom`: returns the bathroom
target label when the agent is active, at the matching place, the current
hour equals its assigned slot and it has not yet visited today. -/
def shouldVisitBathroom (a : Agent4) (currentHour : ℤ) : Option String :=
  if a.isActive = false then none
  else if a.isAtSchool = true ∧ currentHour = a.schoolBathroomHour ∧
      a.hasVisitedSchoolBathroomToday = false then some ("schoolWater")
  else if a.isAtSchool = false ∧ currentHour = a.houseBathroomHour ∧
      a.hasVisitedHouseBathroomToday = false then some ("houseWater")
  else none

/-- Translated from sim4's `markBathroomVisitComplete`. -/
def markBathroomVisitComplete (a : Agent4) (bathroomLocation : String) :
    Agent4 :=
  if bathroomLocation = ("schoolWater") then
    { a with hasVisitedSchoolBathroomToday := true }
  else if bathroomLocation = ("houseWater") then
    { a with hasVisitedHouseBathroomToday := true }
  else a

/-- Translated from sim4's `checkHouseWaterContamination` acting on
`houseWaterBodies[agentIndex]`: an infected agent arriving at `houseWater`
contaminates its own house water body and resets the contamination
timer. -/
def checkHouseWaterContamination4 (label : String) (agentIndex : ℕ)
    (agentInfected : Bool) (cells : List HouseCell) : List HouseCell :=
  if label = ("houseWater") ∧ agentInfected = true then
    match cells.get? agentIndex with
    | some c =>
        cells.set agentIndex
          { c with isContaminated := true, contaminatedTime := 0 }
    | none => cells
  else cells

/-- Translated from the bathroom-completion block of sim4's
`updateAgentMovement` arrival branch: mark the visit complete, run the
arrival-triggered rule checks (`contaminateSchoolWaterbody` then
`checkAgentInfection` for `schoolWater`; `checkHouseWaterContamination`
for `houseWater`), clear `isTravelingToBathroom` and retarget to school or
house according to `isAtSchool`. -/
def finishBathroomVisit (agentIndex : ℕ) (a : Agent4)
    (sw : SchoolWaterBody) (cells : List HouseCell) :
    Agent4 × SchoolWaterBody × List HouseCell :=
  let a1 := markBathroomVisitComplete a a.currentLocation
  let back : String := if a1.isAtSchool = true then ("school")
                       else ("house")
  if a1.currentLocation = ("schoolWater") then
    let sw1 := contaminateSchoolWaterbody a1.currentLocation a1.isInfected sw
    let a2 := { a1 with
      isInfected :=
        checkAgentInfection a1.currentLocation sw1.isContaminated
          a1.isInfected,
      isTravelingToBathroom := false, targetLocation := back }
    (a2, sw1, cells)
  else if a1.currentLocation = ("houseWater") then
    let cells1 :=
      checkHouseWaterContamination4 a1.currentLocation agentIndex
        a1.isInfected cells
    ({ a1 with isTravelingToBathroom := false, targetLocation := back },
     sw, cells1)
  else
    ({ a1 with isTravelingToBathroom := false, targetLocation := back },
     sw, cells)

/-- The bathroom-retarget step at the top of sim4's `updateAgentMovement`
loop body: when `shouldVisitBathroom` fires and the agent is not already
traveling to a bathroom, its target becomes the bathroom label. -/
def bathroomRetarget (currentHour : ℤ) (a : Agent4) : Agent4 :=
  match shouldVisitBathroom a currentHour with
  | some t =>
      if a.isTravelingToBathroom = false then
        { a with targetLocation := t, isTravelingToBathroom := true }
      else a
  | none => a

/-- The schedule-retarget step of sim4's `updateAgentMovement` loop body:
an agent not traveling to a bathroom follows `getAgentTargetLocation`. -/
def scheduleRetarget (currentHour : ℤ) (a : Agent4) : Agent4 :=
  if a.isTravelingToBathroom = false then
    let p := getAgentTargetLocation currentHour a
    { p.1 with targetLocation := p.2 }
  else a

/-- The movement part of sim4's loop body, applied after retargeting:
either snap-and-handle-arrival (when `distance < speed`) or take the
normalized step (oracle `move`). -/
def moveAgent4Core (move : MoveFun) (agentIndex : ℕ) (a2 : Agent4)
    (sw : SchoolWaterBody) (cells : List HouseCell) :
    Agent4 × SchoolWaterBody × List HouseCell :=
  let t := resolveItinerary4 a2.targetLocation agentIndex
  let dx : ℚ := t.1 - a2.x
  let dy : ℚ := t.2 - a2.y
  if 0 < a2.speed ∧ dx ^ 2 + dy ^ 2 < a2.speed ^ 2 then
    let a3 := { a2 with x := t.1, y := t.2,
                        currentLocation := a2.targetLocation }
    if a3.isTravelingToBathroom = true then
      finishBathroomVisit agentIndex a3 sw cells
    else (a3, sw, cells)
  else
    let p := move (a2.x, a2.y) t a2.speed
    ({ a2 with x := p.1, y := p.2 }, sw, cells)

/-- Translated from the per-agent body of sim4's `updateAgentMovement`:
skip inactive agents; possibly retarget to a bathroom; otherwise follow
the schedule; then move. -/
def moveAgent4 (move : MoveFun) (currentHour : ℤ) (agentIndex : ℕ)
    (a : Agent4) (sw : SchoolWaterBody) (cells : List HouseCell) :
    Agent4 × SchoolWaterBody × List HouseCell :=
  if a.isActive = false then (a, sw, cells)
  else
    moveAgent4Core move agentIndex
      (scheduleRetarget currentHour (bathroomRetarget currentHour a))
      sw cells

/-- The `agents.forEach` loop of sim4's `updateAgentMovement`: agents are
processed in index order and mutations of the school water body and the
house water bodies made by earlier agents are visible to later ones. -/
def updateAgentMovement4 (move : MoveFun) (currentHour : ℤ) :
    ℕ → List Agent4 → SchoolWaterBody → List HouseCell →
    List Agent4 × SchoolWaterBody × List HouseCell
  | _, [], sw, cells => ([], sw, cells)
  | i, a :: rest, sw, cells =>
    let r := moveAgent4 move currentHour i a sw cells
    let rs := updateAgentMovement4 move currentHour (i + 1) rest r.2.1 r.2.2
    (r.1 :: rs.1, rs.2.1, rs.2.2)

/-- The `houseWaterBodies.forEach` loop of sim4's
`updateHouseInfectionState`: cell `i` is skipped when `agents[i]` is
inactive, otherwise updated by the shared per-cell rule. -/
def updateHouseInfectionState4 (deltaTime : ℚ) (agents : List Agent4) :
    ℕ → List HouseCell → List HouseCell
  | _, [] => []
  | i, c :: rest =>
    let c1 := if (agents.getD i default).isActive = true then
                updateHouseInfectionState deltaTime c
              else c
    c1 :: updateHouseInfectionState4 deltaTime agents (i + 1) rest

/-- Translated from sim4's `assignDailyBathroomSchedules`: every active
agent receives fresh bathroom hours (the source draws them with
`Math.random` from the fixed slot lists; the drawn values are supplied by
the oracles `slotS`/`slotH`, indexed by agent position) and its
visited-today flags are cleared. -/
def assignDailyBathroomSchedules (slotS slotH : ℕ → ℤ) :
    ℕ → List Agent4 → List Agent4
  | _, [] => []
  | i, a :: rest =>
    let a1 := if a.isActive = false then a
              else { a with schoolBathroomHour := slotS i,
                            houseBathroomHour := slotH i,
                            hasVisitedSchoolBathroomToday := false,
                            hasVisitedHouseBathroomToday := false }
    a1 :: assignDailyBathroomSchedules slotS slotH (i + 1) rest

/-- One frame of sim4's `animate`: update the time manager, on a day
change reassign bathroom schedules (and remember the day), then
`updateAgentMovement()` and `updateHouseInfectionState(deltaTime)`. -/
def tick4 (move : MoveFun) (slotS slotH : ℕ → ℤ) (deltaTime : ℚ)
    (s : Sim4State) : Sim4State :=
  let tm := updateTimeManager s.timeManager deltaTime
  let dayChanged := tm.currentDay ≠ s.previousDay
  let prev := if dayChanged then tm.currentDay else s.previousDay
  let ag0 := if dayChanged then
               assignDailyBathroomSchedules slotS slotH 0 s.agents
             else s.agents
  let hour := getCurrentHour tm
  let m := updateAgentMovement4 move hour 0 ag0 s.schoolWaterBody
             s.houseCells
  let cells := updateHouseInfectionState4 deltaTime m.1 0 m.2.2
  { timeManager := tm, previousDay := prev, agents := m.1,
    schoolWaterBody := m.2.1, houseCells := cells }

/-! ## sim5: multiple communities, travel, no infection logic -/

/-- Translated from sim5's agent objects. -/
structure Agent5 where
  x : ℚ
  y : ℚ
  houseX : ℚ
  houseY : ℚ
  communityId : ℕ
  agentId : ℕ
  speed : ℚ
  targetCommunityId : ℕ
  currentLocation : String
  targetLocation : String
  isInfected : Bool
  isActive : Bool
  isMobile : Bool
  deriving Repr, DecidableEq

instance : Inhabited Agent5 :=
  ⟨⟨0, 0, 0, 0, 0, 0, 0, 0, ("house"), ("house"), false, false, false⟩⟩

/-- Translated from sim5's `waterbodies` entries. -/
structure WaterBody5 where
  x : ℚ
  y : ℚ
  communityId : ℕ
  isContaminated : Bool
  contaminationThreshold : ℕ
  deriving Repr, DecidableEq

instance : Inhabited WaterBody5 := ⟨⟨0, 0, 0, false, 0⟩⟩

/-- Global state of sim5. -/
structure Sim5State where
  timeManager : TimeManager
  previousDay : ℤ
  agents : List Agent5
  waterbodies : List WaterBody5
  deriving Repr, DecidableEq

/-- The `communitiesPositions` array of sim5 (canvas 600x400). -/
def communitiesPositions : List (ℚ × ℚ) :=
  [(300, 200), (225, 200 / 3), (375, 200 / 3), (75, 200), (525, 200),
   (150, 1000 / 3), (450, 1000 / 3)]

/-- The initial `waterbodies` array of sim5: one per community position,
only index 0 contaminated, threshold 3. -/
def sim5InitialWaterbodies : List WaterBody5 :=
  (List.range communitiesPositions.length).map fun i =>
    let p := communitiesPositions.getD i (0, 0)
    ⟨p.1, p.2, i, decide (i = 0), 3⟩

/-- The initial `agents` array of sim5: for each of the 7 communities, 10
agents placed on a circle of radius 35 around the community water body
(`generateAgentPositions` uses `Math.cos`/`Math.sin`, so the coordinates
are supplied by the layout parameter `pos`), each starting at its house
position with speed `1.5`, `targetCommunityId = agentIndex % 7`, inactive
movement (`isMobile = false`), uninfected. -/
def sim5InitialAgents (pos : ℕ → ℕ → ℚ × ℚ) : List Agent5 :=
  (List.range communitiesPositions.length).flatMap fun c =>
    (List.range 10).map fun i =>
      let p := pos c i
      { x := p.1, y := p.2, houseX := p.1, houseY := p.2,
        communityId := c, agentId := i, speed := 3 / 2,
        targetCommunityId := i % communitiesPositions.length,
        currentLocation := ("house"), targetLocation := ("house"),
        isInfected := false, isActive := true, isMobile := false }

/-- The state of sim5 at first load: `timeManager` with start hour 8, time
scale 2, day 0; `previousDay = 0`. -/
def sim5InitialState (pos : ℕ → ℕ → ℚ × ℚ) : Sim5State :=
  { timeManager := ⟨8, 0, 2, 0⟩, previousDay := 0,
    agents := sim5InitialAgents pos,
    waterbodies := sim5InitialWaterbodies }

/-- The per-agent body of sim5's `activateAgentsForDay`: on day 1 all
agents are active and only community 0 is mobile; from day 2 on everyone
is active and mobile (two consecutive `if` statements in the source). -/
def activateAgent (currentDay : ℤ) (a : Agent5) : Agent5 :=
  let a1 := if currentDay = 1 then
              { a with isActive := true,
                       isMobile := decide (a.communityId = 0) }
            else a
  if 2 ≤ currentDay then { a1 with isActive := true, isMobile := true }
  else a1

/-- Translated from sim5's `activateAgentsForDay`: computes the current
day once and updates every agent's activity flags. -/
def activateAgentsForDay (tm : TimeManager) (agents : List Agent5) :
    List Agent5 :=
  agents.map (activateAgent (getCurrentDay tm))

/-- Translated from sim5's `resolveLocation`: `house` resolves to the
agent's own house, `visitOtherCommunity` to the target community's
position, anything else defaults to the agent's house. -/
def resolveLocation (locationLabelInput : String) (a : Agent5) : ℚ × ℚ :=
  if locationLabelInput = ("house") then (a.houseX, a.houseY)
  else if locationLabelInput = ("visitOtherCommunity") then
    communitiesPositions.getD a.targetCommunityId (0, 0)
  else (a.houseX, a.houseY)

/-- Translated from the per-agent body of sim5's `updateAgentMovement`:
skip inactive or immobile agents; snap on arrival and toggle the target
between `house` and `visitOtherCommunity`; otherwise take the normalized
step (oracle `move`). -/
def moveAgent5 (move : MoveFun) (a : Agent5) : Agent5 :=
  if a.isActive = false ∨ a.isMobile = false then a
  else
    let t := resolveLocation a.targetLocation a
    let dx : ℚ := t.1 - a.x
    let dy : ℚ := t.2 - a.y
    if 0 < a.speed ∧ dx ^ 2 + dy ^ 2 < a.speed ^ 2 then
      let a1 : Agent5 := { a with x := t.1, y := t.2,
                                  currentLocation := a.targetLocation }
      { a1 with targetLocation :=
          if a1.currentLocation = ("house") then ("visitOtherCommunity")
          else ("house") }
    else
      let p := move (a.x, a.y) t a.speed
      { a with x := p.1, y := p.2 }

/-- One frame of sim5's `animate`: update the time manager, on a day
change call `activateAgentsForDay` (and remember the day), then
`updateAgentMovement()`.  The water bodies are not touched by any frame
operation. -/
def tick5 (move : MoveFun) (deltaTime : ℚ) (s : Sim5State) : Sim5State :=
  let tm := updateTimeManager s.timeManager deltaTime
  let day := getCurrentDay tm
  let dayChanged := day ≠ s.previousDay
  let prev := if dayChanged then day else s.previousDay
  let ag0 := if dayChanged then activateAgentsForDay tm s.agents
             else s.agents
  { timeManager := tm, previousDay := prev,
    agents := ag0.map (moveAgent5 move), waterbodies := s.waterbodies }

/-- Translated from sim5's `startSimulation` (state-mutating part): it
calls `activateAgentsForDay()` before starting the animation loop. -/
def startSimulation5 (s : Sim5State) : Sim5State :=
  { s with agents := activateAgentsForDay s.timeManager s.agents }

/-- Translated from sim5's `resetSimulation`: every agent back to its
house, flags reset (`isActive = true`, `isMobile = false`,
`isInfected = false`), time manager zeroed.  `previousDay` and the
`waterbodies` array are not touched by the source. -/
def resetSimulation5 (s : Sim5State) : Sim5State :=
  { s with
    agents := s.agents.map fun a =>
      { a with x := a.houseX, y := a.houseY,
               currentLocation := ("house"), targetLocation := ("house"),
               isInfected := false, isActive := true, isMobile := false },
    timeManager := resetTimeManager s.timeManager }

/-- The states of sim5 reachable from first load under the public
operations: frame ticks (with nonnegative frame delta, the source's
`timestamp - lastTimestamp` of a monotonic clock), `startSimulation`'s
activation, and `resetSimulation`. -/
inductive Reachable5 (pos : ℕ → ℕ → ℚ × ℚ) : Sim5State → Prop
  | init : Reachable5 pos (sim5InitialState pos)
  | tick (s : Sim5State) (move : MoveFun) (Δ : ℚ) (hΔ : 0 ≤ Δ) :
      Reachable5 pos s → Reachable5 pos (tick5 move Δ s)
  | start (s : Sim5State) :
      Reachable5 pos s → Reachable5 pos (startSimulation5 s)
  | reset (s : Sim5State) :
      Reachable5 pos s → Reachable5 pos (resetSimulation5 s)

/-- A concrete layout parameter used only to instantiate universally
quantified theorems on concrete states. -/
def posZero : ℕ → ℕ → ℚ × ℚ := fun _ _ => (0, 0)

/-- Remaining-distance dynamics of the movement integrator
(`updateAgentMovement`, identical kinematics in all variants) toward a
fixed target: with target `T` fixed and no direction change, the agent
stays on the segment from its current position to `T`; the source snaps to
`T` when `distance < speed` and otherwise steps exactly `speed` along the
unit direction `((T.x-x)/distance, (T.y-y)/distance)`, which decreases the
euclidean distance to `T` by exactly `speed`.  `moveStep speed d` is that
remaining distance after one tick (`0` encodes "position = T"). -/
def moveStep (speed d : ℚ) : ℚ := if d < speed then 0 else d - speed

/-- Replacing every water body record of a sim5 state (used to express
that no frame operation reads or writes the `waterbodies` array). -/
def mapWaterbodies (f : WaterBody5 → WaterBody5) (s : Sim5State) :
    Sim5State :=
  { s with waterbodies := s.waterbodies.map f }

/-- Run-invariant of sim5 needed for the immobile-agents property: every
agent is active with speed `1.5`; immobile agents sit at their house with
target `house`; while the simulated day is at most 1 only community 0 can
be mobile; the time manager's constants are those of the source and the
simulation time is nonnegative. -/
def sim5Inv (s : Sim5State) : Prop :=
  (∀ a ∈ s.agents, a.speed = 3 / 2 ∧ a.isActive = true)
  ∧ (∀ a ∈ s.agents, a.isMobile = false →
      a.x = a.houseX ∧ a.y = a.houseY ∧ a.targetLocation = ("house"))
  ∧ (getCurrentDay s.timeManager ≤ 1 →
      ∀ a ∈ s.agents, a.communityId ≠ 0 → a.isMobile = false)
  ∧ s.timeManager.timeScale = 2 ∧ s.timeManager.scheduleStartTime = 8
  ∧ 0 ≤ s.timeManager.currentSimulationTime

/-- A sim5 agent of community 1 whose travel target is community 0 (as the
source assigns to `agentId 0` of every community), mobile and uninfected,
one pixel away from community 0's water body. -/
def travelerToCommunity0 : Agent5 :=
  { x := 299, y := 200, houseX := 260, houseY := 200 / 3, communityId := 1,
    agentId := 0, speed := 3 / 2, targetCommunityId := 0,
    currentLocation := ("house"),
    targetLocation := ("visitOtherCommunity"), isInfected := false,
    isActive := true, isMobile := true }

/-- A sim5 state on simulated day 2 (`currentSimulationTime = 10` s, so no
day change on a zero-delta tick) containing `travelerToCommunity0` and the
initial water bodies (community 0's contaminated). -/
def sim5ArrivalState : Sim5State :=
  { timeManager := ⟨8, 10, 2, 2⟩, previousDay := 2,
    agents := [travelerToCommunity0],
    waterbodies := sim5InitialWaterbodies }

/-- A sim1 state late in a run: the agent got infected, contaminated the
house water body, and the accumulated contamination time reached 1600 ms,
infecting the house. -/
def sim1ContaminatedRunState : Sim1State :=
  { agentX := 100, agentY := 100, agentSpeed := 3 / 2, stepIndex := 5,
    agentInfected := true, houseCell := ⟨true, 1600, true⟩,
    schoolWaterContaminated := true }

/-- A sim1 state with every infection and contamination flag set (used to
instantiate the monotonicity theorem). -/
def sim1AllFlagsState : Sim1State :=
  { agentX := 110, agentY := 110, agentSpeed := 3 / 2, stepIndex := 0,
    agentInfected := true, houseCell := ⟨true, 0, false⟩,
    schoolWaterContaminated := true }

/-- A one-agent sim4 state with infected agent, contaminated school water
body (threshold 2 reached) and contaminated house water body. -/
def sim4OneAgentState : Sim4State :=
  { timeManager := ⟨8, 0, 2, 0⟩, previousDay := 0,
    agents := [{ (default : Agent4) with
      isActive := true, isInfected := true, speed := 3 / 2,
      x := 160, y := 110 }],
    schoolWaterBody := ⟨true, 2, 2⟩,
    houseCells := [⟨true, 0, false⟩] }

/-- A one-agent sim4 state whose agent is inactive (the `default` agent
record has `isActive = false`). -/
def sim4InactiveState : Sim4State :=
  { timeManager := ⟨8, 0, 2, 0⟩, previousDay := 0,
    agents := [default], schoolWaterBody := ⟨false, 0, 3⟩,
    houseCells := [⟨false, 0, false⟩] }

/-! ## Helper lemmas -/

theorem moveStep_eq_max (S d : ℚ) :
    moveStep S d = max (d - S) 0 := by
  unfold moveStep
  rcases lt_or_le d S with h | h
  · rw [if_pos h, eq_comm, max_eq_right]
    linarith
  · rw [if_neg (not_lt.mpr h), eq_comm, max_eq_left]
    linarith

theorem moveStep_iterate (S : ℚ) (hS : 0 < S) :
    ∀ (n : ℕ) (d : ℚ), 0 ≤ d →
      (moveStep S)^[n] d = max (d - n * S) 0 := by
  intro n
  induction n with
  | zero =>
    intro d hd
    simp [max_eq_left hd]
  | succ n ih =>
    intro d hd
    rw [Function.iterate_succ_apply, moveStep_eq_max S,
      ih _ (le_max_right _ _)]
    rcases le_total (d - S) 0 with h | h
    · rw [max_eq_right h]
      have hn : (0 : ℚ) ≤ n * S := by positivity
      rw [max_eq_right (by linarith), eq_comm, max_eq_right]
      push_cast
      nlinarith
    · rw [max_eq_left h]
      have : d - S - n * S = d - (n + 1 : ℕ) * S := by push_cast; ring
      rw [this]

theorem houseRun_infected_of_infected (ds : List ℚ) (c : HouseCell)
    (hc : c.houseInfected = true) : houseRun c ds = c := by
  induction ds with
  | nil => rfl
  | cons d ds ih =>
    have hstep : updateHouseInfectionState d c = c := by
      unfold updateHouseInfectionState
      rw [if_neg]
      simp [hc]
    unfold houseRun
    rw [List.foldl_cons, hstep]
    exact ih

theorem houseRun_infected_iff (ds : List ℚ) :
    ∀ t : ℚ, t < houseInfectionDelay → (∀ d ∈ ds, 0 ≤ d) →
      ((houseRun ⟨true, t, false⟩ ds).houseInfected = true ↔
        houseInfectionDelay ≤ t + ds.sum) := by
  induction ds with
  | nil =>
    intro t ht _
    simp [houseRun]
    linarith
  | cons d ds ih =>
    intro t ht hpos
    have hd : 0 ≤ d := hpos d (List.mem_cons_self d ds)
    have hds : ∀ x ∈ ds, 0 ≤ x := fun x hx => hpos x (List.mem_cons_of_mem d hx)
    have hsum : 0 ≤ ds.sum := List.sum_nonneg hds
    have hstep : updateHouseInfectionState d ⟨true, t, false⟩ =
        ⟨true, t + d, decide (houseInfectionDelay ≤ t + d)⟩ := by
      simp [updateHouseInfectionState]
    unfold houseRun
    rw [List.foldl_cons]
    show ((houseRun (updateHouseInfectionState d ⟨true, t, false⟩) ds).houseInfected
        = true) ↔ _
    rw [hstep]
    rcases le_or_lt houseInfectionDelay (t + d) with h | h
    · rw [decide_eq_true h]
      rw [houseRun_infected_of_infected ds _ rfl]
      simp only [List.sum_cons]
      constructor
      · intro _
        linarith
      · intro _
        trivial
    · rw [decide_eq_false (not_le.mpr h)]
      rw [ih (t + d) h hds]
      simp only [List.sum_cons]
      constructor <;> intro h2 <;> linarith

theorem schoolWaterRun_contaminated (events : List Bool)
    (sw : SchoolWaterBody) (h : sw.isContaminated = true) :
    schoolWaterRun sw events = sw := by
  induction events with
  | nil => rfl
  | cons b es ih =>
    have hstep : contaminateSchoolWaterbody ("schoolWater") b sw = sw := by
      unfold contaminateSchoolWaterbody
      rw [if_neg]
      simp [h]
    unfold schoolWaterRun
    rw [List.foldl_cons, hstep]
    exact ih

theorem schoolWaterRun_iff (events : List Bool) :
    ∀ m k : ℕ, m < k →
      ((schoolWaterRun ⟨false, m, k⟩ events).isContaminated = true ↔
        k ≤ m + events.count true) := by
  induction events with
  | nil =>
    intro m k hm
    simp [schoolWaterRun]
    omega
  | cons b es ih =>
    intro m k hm
    unfold schoolWaterRun
    rw [List.foldl_cons]
    show ((schoolWaterRun
        (contaminateSchoolWaterbody ("schoolWater") b ⟨false, m, k⟩) es).isContaminated
        = true) ↔ _
    cases b with
    | false =>
      have hstep : contaminateSchoolWaterbody ("schoolWater") false ⟨false, m, k⟩ =
          ⟨false, m, k⟩ := by
        unfold contaminateSchoolWaterbody
        rw [if_neg]
        simp
      rw [hstep, ih m k hm]
      simp [List.count_cons]
    | true =>
      rcases le_or_lt k (m + 1) with h | h
      · have hstep : contaminateSchoolWaterbody ("schoolWater") true ⟨false, m, k⟩ =
            ⟨true, m + 1, k⟩ := by
          unfold contaminateSchoolWaterbody
          rw [if_pos ⟨rfl, rfl, rfl⟩]
          simp only [if_pos h]
        rw [hstep, schoolWaterRun_contaminated es _ rfl]
        simp [List.count_cons]
        omega
      · have hstep : contaminateSchoolWaterbody ("schoolWater") true ⟨false, m, k⟩ =
            ⟨false, m + 1, k⟩ := by
          unfold contaminateSchoolWaterbody
          rw [if_pos ⟨rfl, rfl, rfl⟩]
          simp only [if_neg (not_le.mpr h)]
        rw [hstep, ih (m + 1) k h]
        simp [List.count_cons]
        omega

theorem checkAgentInfection_mono (l : String) (c b : Bool) (h : b = true) :
    checkAgentInfection l c b = true := by
  unfold checkAgentInfection
  split
  · rfl
  · exact h

theorem updateHouseInfectionState_isContaminated (d : ℚ) (c : HouseCell) :
    (updateHouseInfectionState d c).isContaminated = c.isContaminated := by
  unfold updateHouseInfectionState
  split <;> rfl

theorem updateHouseInfectionState_infected_mono (d : ℚ) (c : HouseCell)
    (h : c.houseInfected = true) :
    (updateHouseInfectionState d c).houseInfected = true := by
  unfold updateHouseInfectionState
  split
  · rename_i hc
    rw [h] at hc
    simp at hc
  · exact h

theorem updateHouseInfectionState_contaminated_mono (d : ℚ) (c : HouseCell)
    (h : c.isContaminated = true) :
    (updateHouseInfectionState d c).isContaminated = true := by
  rw [updateHouseInfectionState_isContaminated]
  exact h

theorem contaminateSchoolWaterbody_mono (l : String) (b : Bool)
    (sw : SchoolWaterBody) (h : sw.isContaminated = true) :
    (contaminateSchoolWaterbody l b sw).isContaminated = true := by
  unfold contaminateSchoolWaterbody
  split
  · rename_i hc
    rw [h] at hc
    simp at hc
  · exact h

theorem updateAgentMovement1_school (move : MoveFun) (s : Sim1State) :
    (updateAgentMovement1 move s).schoolWaterContaminated =
      s.schoolWaterContaminated := by
  simp only [updateAgentMovement1, checkAgentInfection1,
    checkHouseWaterContamination1]
  split
  · split <;> rfl
  · rfl

theorem updateAgentMovement1_infected_mono (move : MoveFun) (s : Sim1State)
    (h : s.agentInfected = true) :
    (updateAgentMovement1 move s).agentInfected = true := by
  simp only [updateAgentMovement1, checkAgentInfection1,
    checkHouseWaterContamination1]
  split
  · split
    · exact checkAgentInfection_mono _ _ _ h
    · exact checkAgentInfection_mono _ _ _ h
  · exact h

theorem updateAgentMovement1_houseContaminated_mono (move : MoveFun)
    (s : Sim1State) (h : s.houseCell.isContaminated = true) :
    (updateAgentMovement1 move s).houseCell.isContaminated = true := by
  simp only [updateAgentMovement1, checkAgentInfection1,
    checkHouseWaterContamination1]
  split
  · split
    · rfl
    · exact h
  · exact h

theorem updateAgentMovement1_houseInfected (move : MoveFun)
    (s : Sim1State) :
    (updateAgentMovement1 move s).houseCell.houseInfected =
      s.houseCell.houseInfected := by
  simp only [updateAgentMovement1, checkAgentInfection1,
    checkHouseWaterContamination1]
  split
  · split <;> rfl
  · rfl

theorem bathroomRetarget_isInfected (hour : ℤ) (a : Agent4) :
    (bathroomRetarget hour a).isInfected = a.isInfected := by
  unfold bathroomRetarget
  cases shouldVisitBathroom a hour with
  | none => rfl
  | some t =>
    dsimp only
    split <;> rfl

theorem scheduleRetarget_isInfected (hour : ℤ) (a : Agent4) :
    (scheduleRetarget hour a).isInfected = a.isInfected := by
  simp only [scheduleRetarget, getAgentTargetLocation]
  split
  · split <;> rfl
  · rfl

theorem markBathroomVisitComplete_isInfected (a : Agent4) (l : String) :
    (markBathroomVisitComplete a l).isInfected = a.isInfected := by
  unfold markBathroomVisitComplete
  split
  · rfl
  · split <;> rfl

theorem getD_set_contaminated (cells : List HouseCell) :
    ∀ (i j : ℕ) (c : HouseCell),
      ((cells.getD j default).isContaminated = true) →
      c.isContaminated = true →
      ((cells.set i c).getD j default).isContaminated = true := by
  induction cells with
  | nil =>
    intro i j c h _
    simp at h
  | cons x xs ih =>
    intro i j c h hc
    cases i with
    | zero =>
      cases j with
      | zero => simpa using hc
      | succ j => simpa using h
    | succ i =>
      cases j with
      | zero => simpa using h
      | succ j =>
        simp only [List.set_cons_succ, List.getD_cons_succ] at h ⊢
        exact ih i j c h hc

theorem checkHouseWaterContamination4_mono (l : String) (i : ℕ) (b : Bool)
    (cells : List HouseCell) (j : ℕ)
    (h : (cells.getD j default).isContaminated = true) :
    ((checkHouseWaterContamination4 l i b cells).getD j
      default).isContaminated = true := by
  unfold checkHouseWaterContamination4
  split
  · cases hget : cells.get? i with
    | none => simpa using h
    | some c => exact getD_set_contaminated cells i j _ h rfl
  · exact h

theorem finishBathroomVisit_infected_mono (i : ℕ) (a : Agent4)
    (sw : SchoolWaterBody) (cells : List HouseCell)
    (h : a.isInfected = true) :
    (finishBathroomVisit i a sw cells).1.isInfected = true := by
  simp only [finishBathroomVisit]
  split
  · apply checkAgentInfection_mono
    rw [markBathroomVisitComplete_isInfected]
    exact h
  · split
    · rw [markBathroomVisitComplete_isInfected]
      exact h
    · rw [markBathroomVisitComplete_isInfected]
      exact h

theorem finishBathroomVisit_school_mono (i : ℕ) (a : Agent4)
    (sw : SchoolWaterBody) (cells : List HouseCell)
    (h : sw.isContaminated = true) :
    (finishBathroomVisit i a sw cells).2.1.isContaminated = true := by
  simp only [finishBathroomVisit]
  split
  · exact contaminateSchoolWaterbody_mono _ _ _ h
  · split
    · exact h
    · exact h

theorem finishBathroomVisit_cells_mono (i : ℕ) (a : Agent4)
    (sw : SchoolWaterBody) (cells : List HouseCell) (j : ℕ)
    (h : (cells.getD j default).isContaminated = true) :
    ((finishBathroomVisit i a sw cells).2.2.getD j
      default).isContaminated = true := by
  simp only [finishBathroomVisit]
  split
  · exact h
  · split
    · exact checkHouseWaterContamination4_mono _ _ _ _ _ h
    · exact h

theorem moveAgent4Core_infected_mono (move : MoveFun) (i : ℕ) (a2 : Agent4)
    (sw : SchoolWaterBody) (cells : List HouseCell)
    (h : a2.isInfected = true) :
    (moveAgent4Core move i a2 sw cells).1.isInfected = true := by
  simp only [moveAgent4Core]
  split
  · split
    · exact finishBathroomVisit_infected_mono _ _ _ _ h
    · exact h
  · exact h

theorem moveAgent4Core_school_mono (move : MoveFun) (i : ℕ) (a2 : Agent4)
    (sw : SchoolWaterBody) (cells : List HouseCell)
    (h : sw.isContaminated = true) :
    (moveAgent4Core move i a2 sw cells).2.1.isContaminated = true := by
  simp only [moveAgent4Core]
  split
  · split
    · exact finishBathroomVisit_school_mono _ _ _ _ h
    · exact h
  · exact h

theorem moveAgent4Core_cells_mono (move : MoveFun) (i : ℕ) (a2 : Agent4)
    (sw : SchoolWaterBody) (cells : List HouseCell) (j : ℕ)
    (h : (cells.getD j default).isContaminated = true) :
    ((moveAgent4Core move i a2 sw cells).2.2.getD j
      default).isContaminated = true := by
  simp only [moveAgent4Core]
  split
  · split
    · exact finishBathroomVisit_cells_mono _ _ _ _ _ h
    · exact h
  · exact h

theorem moveAgent4_infected_mono (move : MoveFun) (hour : ℤ) (i : ℕ)
    (a : Agent4) (sw : SchoolWaterBody) (cells : List HouseCell)
    (h : a.isInfected = true) :
    (moveAgent4 move hour i a sw cells).1.isInfected = true := by
  unfold moveAgent4
  split
  · exact h
  · apply moveAgent4Core_infected_mono
    rw [scheduleRetarget_isInfected, bathroomRetarget_isInfected]
    exact h

theorem moveAgent4_school_mono (move : MoveFun) (hour : ℤ) (i : ℕ)
    (a : Agent4) (sw : SchoolWaterBody) (cells : List HouseCell)
    (h : sw.isContaminated = true) :
    (moveAgent4 move hour i a sw cells).2.1.isContaminated = true := by
  unfold moveAgent4
  split
  · exact h
  · exact moveAgent4Core_school_mono _ _ _ _ _ h

theorem moveAgent4_cells_mono (move : MoveFun) (hour : ℤ) (i : ℕ)
    (a : Agent4) (sw : SchoolWaterBody) (cells : List HouseCell) (j : ℕ)
    (h : (cells.getD j default).isContaminated = true) :
    ((moveAgent4 move hour i a sw cells).2.2.getD j
      default).isContaminated = true := by
  unfold moveAgent4
  split
  · exact h
  · exact moveAgent4Core_cells_mono _ _ _ _ _ _ h

theorem updateAgentMovement4_infected_mono (move : MoveFun) (hour : ℤ) :
    ∀ (agents : List Agent4) (idx : ℕ) (sw : SchoolWaterBody)
      (cells : List HouseCell) (j : ℕ),
      ((agents.getD j default).isInfected = true) →
      (((updateAgentMovement4 move hour idx agents sw cells).1.getD j
        default).isInfected = true) := by
  intro agents
  induction agents with
  | nil =>
    intro idx sw cells j h
    simp at h
  | cons a rest ih =>
    intro idx sw cells j h
    cases j with
    | zero =>
      simp only [List.getD_cons_zero] at h
      simp only [updateAgentMovement4, List.getD_cons_zero]
      exact moveAgent4_infected_mono _ _ _ _ _ _ h
    | succ j =>
      simp only [List.getD_cons_succ] at h
      simp only [updateAgentMovement4, List.getD_cons_succ]
      exact ih _ _ _ j h

theorem updateAgentMovement4_school_mono (move : MoveFun) (hour : ℤ) :
    ∀ (agents : List Agent4) (idx : ℕ) (sw : SchoolWaterBody)
      (cells : List HouseCell),
      sw.isContaminated = true →
      (updateAgentMovement4 move hour idx agents sw
        cells).2.1.isContaminated = true := by
  intro agents
  induction agents with
  | nil =>
    intro idx sw cells h
    exact h
  | cons a rest ih =>
    intro idx sw cells h
    simp only [updateAgentMovement4]
    exact ih _ _ _ (moveAgent4_school_mono _ _ _ _ _ _ h)

theorem updateAgentMovement4_cells_mono (move : MoveFun) (hour : ℤ) :
    ∀ (agents : List Agent4) (idx : ℕ) (sw : SchoolWaterBody)
      (cells : List HouseCell) (j : ℕ),
      ((cells.getD j default).isContaminated = true) →
      (((updateAgentMovement4 move hour idx agents sw cells).2.2.getD j
        default).isContaminated = true) := by
  intro agents
  induction agents with
  | nil =>
    intro idx sw cells j h
    exact h
  | cons a rest ih =>
    intro idx sw cells j h
    simp only [updateAgentMovement4]
    exact ih _ _ _ j (moveAgent4_cells_mono _ _ _ _ _ _ _ h)

theorem updateHouseInfectionState4_cells_mono (Δ : ℚ)
    (agents : List Agent4) :
    ∀ (cells : List HouseCell) (idx j : ℕ),
      ((cells.getD j default).isContaminated = true) →
      (((updateHouseInfectionState4 Δ agents idx cells).getD j
        default).isContaminated = true) := by
  intro cells
  induction cells with
  | nil =>
    intro idx j h
    simp at h
  | cons c rest ih =>
    intro idx j h
    cases j with
    | zero =>
      simp only [List.getD_cons_zero] at h
      simp only [updateHouseInfectionState4, List.getD_cons_zero]
      split
      · exact updateHouseInfectionState_contaminated_mono _ _ h
      · exact h
    | succ j =>
      simp only [List.getD_cons_succ] at h
      simp only [updateHouseInfectionState4, List.getD_cons_succ]
      exact ih _ j h

theorem assignDailyBathroomSchedules_isInfected (slotS slotH : ℕ → ℤ) :
    ∀ (agents : List Agent4) (idx j : ℕ),
      ((assignDailyBathroomSchedules slotS slotH idx agents).getD j
        default).isInfected = ((agents.getD j default)).isInfected := by
  intro agents
  induction agents with
  | nil =>
    intro idx j
    rfl
  | cons a rest ih =>
    intro idx j
    cases j with
    | zero =>
      simp only [assignDailyBathroomSchedules, List.getD_cons_zero]
      split <;> rfl
    | succ j =>
      simp only [assignDailyBathroomSchedules, List.getD_cons_succ]
      exact ih _ j

theorem moveAgent5_isInfected (move : MoveFun) (a : Agent5) :
    (moveAgent5 move a).isInfected = a.isInfected := by
  simp only [moveAgent5]
  split
  · rfl
  · split <;> rfl

theorem map_agent5_isInfected (f : Agent5 → Agent5)
    (hf : ∀ a, (f a).isInfected = a.isInfected) :
    ∀ (l : List Agent5) (j : ℕ),
      ((l.map f).getD j default).isInfected =
        ((l.getD j default)).isInfected := by
  intro l
  induction l with
  | nil =>
    intro j
    rfl
  | cons a rest ih =>
    intro j
    cases j with
    | zero => simpa using hf a
    | succ j =>
      simp only [List.map_cons, List.getD_cons_succ]
      exact ih j

theorem activateAgent5_isInfected (tm : TimeManager) (l : List Agent5)
    (j : ℕ) :
    ((activateAgentsForDay tm l).getD j default).isInfected =
      ((l.getD j default)).isInfected := by
  unfold activateAgentsForDay
  apply map_agent5_isInfected
  intro a
  simp only [activateAgent]
  split
  · split <;> rfl
  · split <;> rfl

theorem moveAgent5_fields (move : MoveFun) (a : Agent5) :
    (moveAgent5 move a).speed = a.speed
  ∧ (moveAgent5 move a).isActive = a.isActive
  ∧ (moveAgent5 move a).isMobile = a.isMobile
  ∧ (moveAgent5 move a).houseX = a.houseX
  ∧ (moveAgent5 move a).houseY = a.houseY
  ∧ (moveAgent5 move a).communityId = a.communityId := by
  simp only [moveAgent5]
  split
  · exact ⟨rfl, rfl, rfl, rfl, rfl, rfl⟩
  · split <;> exact ⟨rfl, rfl, rfl, rfl, rfl, rfl⟩

theorem moveAgent5_immobile (move : MoveFun) (a : Agent5)
    (h : a.isActive = false ∨ a.isMobile = false) :
    moveAgent5 move a = a := by
  unfold moveAgent5
  rw [if_pos h]

theorem moveAgent5_at_home (move : MoveFun) (a : Agent5)
    (hx : a.x = a.houseX) (hy : a.y = a.houseY)
    (ht : a.targetLocation = ("house")) (hs : a.speed = 3 / 2) :
    (moveAgent5 move a).x = a.x ∧ (moveAgent5 move a).y = a.y := by
  have hres : resolveLocation a.targetLocation a = (a.houseX, a.houseY) := by
    rw [ht]
    simp [resolveLocation]
  simp only [moveAgent5]
  split
  · exact ⟨rfl, rfl⟩
  · rw [hres, hs]
    norm_num [← hx, ← hy]

theorem activateAgent_fields (d : ℤ) (a : Agent5) :
    (activateAgent d a).x = a.x ∧ (activateAgent d a).y = a.y
  ∧ (activateAgent d a).houseX = a.houseX
  ∧ (activateAgent d a).houseY = a.houseY
  ∧ (activateAgent d a).targetLocation = a.targetLocation
  ∧ (activateAgent d a).speed = a.speed
  ∧ (activateAgent d a).communityId = a.communityId
  ∧ (activateAgent d a).isInfected = a.isInfected := by
  simp only [activateAgent]
  split <;> split <;> exact ⟨rfl, rfl, rfl, rfl, rfl, rfl, rfl, rfl⟩

theorem activateAgent_isActive_true (d : ℤ) (a : Agent5)
    (h : a.isActive = true) : (activateAgent d a).isActive = true := by
  simp only [activateAgent]
  split
  · rfl
  · split
    · rfl
    · exact h

theorem activateAgent_day1 (d : ℤ) (a : Agent5) (hd : d = 1) :
    (activateAgent d a).isMobile = decide (a.communityId = 0) := by
  subst hd
  simp [activateAgent]

theorem activateAgent_day2 (d : ℤ) (a : Agent5) (hd : 2 ≤ d) :
    (activateAgent d a).isMobile = true := by
  simp only [activateAgent]
  rw [if_pos hd]

theorem activateAgent_low (d : ℤ) (a : Agent5) (h1 : d ≠ 1)
    (h2 : ¬ 2 ≤ d) : activateAgent d a = a := by
  simp [activateAgent, h1, h2]

theorem updateTimeManager_fields (tm : TimeManager) (Δ : ℚ) :
    (updateTimeManager tm Δ).timeScale = tm.timeScale
  ∧ (updateTimeManager tm Δ).scheduleStartTime = tm.scheduleStartTime
  ∧ (updateTimeManager tm Δ).currentSimulationTime =
      tm.currentSimulationTime + Δ / 1000 :=
  ⟨rfl, rfl, rfl⟩

theorem getCurrentDay_mono (tm : TimeManager) (Δ : ℚ) (hΔ : 0 ≤ Δ)
    (hsc : 0 ≤ tm.timeScale) :
    getCurrentDay tm ≤ getCurrentDay (updateTimeManager tm Δ) := by
  unfold getCurrentDay updateTimeManager
  apply Int.ceil_le_ceil
  have h1 : tm.currentSimulationTime * tm.timeScale ≤
      (tm.currentSimulationTime + Δ / 1000) * tm.timeScale := by nlinarith
  have h2 : tm.currentSimulationTime * tm.timeScale + tm.scheduleStartTime ≤
      (tm.currentSimulationTime + Δ / 1000) * tm.timeScale +
        tm.scheduleStartTime := by linarith
  exact (div_le_div_iff_of_pos_right (by norm_num : (0 : ℚ) < 24)).mpr h2

theorem getCurrentDay_ge_one (tm : TimeManager)
    (ht : 0 ≤ tm.currentSimulationTime) (hsc : tm.timeScale = 2)
    (hst : tm.scheduleStartTime = 8) : 1 ≤ getCurrentDay tm := by
  unfold getCurrentDay
  rw [hsc, hst]
  have h0 : (0 : ℚ) < tm.currentSimulationTime * 2 + 8 := by linarith
  exact Int.ceil_pos.mpr (div_pos h0 (by norm_num))

theorem getD_map_agent5_lt (f : Agent5 → Agent5) (l : List Agent5) :
    ∀ j : ℕ, j < l.length →
      (l.map f).getD j default = f (l.getD j default) := by
  induction l with
  | nil =>
    intro j hj
    simp at hj
  | cons a rest ih =>
    intro j hj
    cases j with
    | zero => rfl
    | succ j =>
      simp only [List.map_cons, List.getD_cons_succ]
      exact ih j (by simpa using hj)

theorem getD_mem_agent5 (l : List Agent5) :
    ∀ j : ℕ, j < l.length → l.getD j default ∈ l := by
  induction l with
  | nil =>
    intro j hj
    simp at hj
  | cons a rest ih =>
    intro j hj
    cases j with
    | zero => exact List.mem_cons_self a rest
    | succ j =>
      exact List.mem_cons_of_mem a (ih j (by simpa using hj))

theorem sim5InitialAgents_mem (pos : ℕ → ℕ → ℚ × ℚ) (a : Agent5)
    (ha : a ∈ sim5InitialAgents pos) :
    a.speed = 3 / 2 ∧ a.isActive = true ∧ a.isMobile = false
  ∧ a.x = a.houseX ∧ a.y = a.houseY ∧ a.targetLocation = ("house")
  ∧ a.isInfected = false := by
  unfold sim5InitialAgents at ha
  rcases List.mem_flatMap.mp ha with ⟨c, hc, hmem⟩
  rcases List.mem_map.mp hmem with ⟨i, hi, rfl⟩
  exact ⟨rfl, rfl, rfl, rfl, rfl, rfl, rfl⟩

theorem sim5Inv_init (pos : ℕ → ℕ → ℚ × ℚ) :
    sim5Inv (sim5InitialState pos) := by
  refine ⟨?_, ?_, ?_, rfl, rfl, le_refl 0⟩
  · intro a ha
    have h := sim5InitialAgents_mem pos a ha
    exact ⟨h.1, h.2.1⟩
  · intro a ha _
    have h := sim5InitialAgents_mem pos a ha
    exact ⟨h.2.2.2.1, h.2.2.2.2.1, h.2.2.2.2.2.1⟩
  · intro _ a ha _
    exact (sim5InitialAgents_mem pos a ha).2.2.1

theorem sim5Inv_tick (move : MoveFun) (Δ : ℚ) (s : Sim5State)
    (h : sim5Inv s) (hΔ : 0 ≤ Δ) : sim5Inv (tick5 move Δ s) := by
  obtain ⟨ha, hb, hc, hsc, hst, ht⟩ := h
  have hsc1 : (updateTimeManager s.timeManager Δ).timeScale = 2 := hsc
  have hst1 : (updateTimeManager s.timeManager Δ).scheduleStartTime = 8 :=
    hst
  have ht1 :
      0 ≤ (updateTimeManager s.timeManager Δ).currentSimulationTime := by
    show 0 ≤ s.timeManager.currentSimulationTime + Δ / 1000
    have : 0 ≤ Δ / 1000 := by positivity
    linarith
  have hday1 : 1 ≤ getCurrentDay (updateTimeManager s.timeManager Δ) :=
    getCurrentDay_ge_one _ ht1 hsc1 hst1
  have hpre :
      getCurrentDay s.timeManager ≤
        getCurrentDay (updateTimeManager s.timeManager Δ) :=
    getCurrentDay_mono s.timeManager Δ hΔ (by rw [hsc]; norm_num)
  have hA : (tick5 move Δ s).agents =
      (if getCurrentDay (updateTimeManager s.timeManager Δ) ≠
          s.previousDay then
        s.agents.map
          (activateAgent (getCurrentDay (updateTimeManager s.timeManager Δ)))
      else s.agents).map (moveAgent5 move) := rfl
  refine ⟨?_, ?_, ?_, hsc1, hst1, ht1⟩
  · intro a2 ha2
    rw [hA] at ha2
    rcases List.mem_map.mp ha2 with ⟨a1, ha1, rfl⟩
    have hf := moveAgent5_fields move a1
    by_cases hdc :
        getCurrentDay (updateTimeManager s.timeManager Δ) ≠ s.previousDay
    · rw [if_pos hdc] at ha1
      rcases List.mem_map.mp ha1 with ⟨a0, ha0, rfl⟩
      have hg := activateAgent_fields
        (getCurrentDay (updateTimeManager s.timeManager Δ)) a0
      constructor
      · rw [hf.1, hg.2.2.2.2.2.1]
        exact (ha a0 ha0).1
      · rw [hf.2.1]
        exact activateAgent_isActive_true _ _ (ha a0 ha0).2
    · rw [if_neg hdc] at ha1
      exact ⟨by rw [hf.1]; exact (ha a1 ha1).1,
             by rw [hf.2.1]; exact (ha a1 ha1).2⟩
  · intro a2 ha2 hmb
    rw [hA] at ha2
    rcases List.mem_map.mp ha2 with ⟨a1, ha1, rfl⟩
    have hf := moveAgent5_fields move a1
    have hmb1 : a1.isMobile = false := by
      rw [hf.2.2.1] at hmb
      exact hmb
    rw [moveAgent5_immobile move a1 (Or.inr hmb1)]
    by_cases hdc :
        getCurrentDay (updateTimeManager s.timeManager Δ) ≠ s.previousDay
    · rw [if_pos hdc] at ha1
      rcases List.mem_map.mp ha1 with ⟨a0, ha0, rfl⟩
      have hg := activateAgent_fields
        (getCurrentDay (updateTimeManager s.timeManager Δ)) a0
      rcases lt_or_le (getCurrentDay (updateTimeManager s.timeManager Δ)) 2
        with hlt | hge
      · have hd1 : getCurrentDay (updateTimeManager s.timeManager Δ) = 1 :=
          by omega
        have hmb0 := activateAgent_day1 _ a0 hd1
        rw [hmb1] at hmb0
        have hcomm : a0.communityId ≠ 0 := by
          intro hc0
          rw [hc0] at hmb0
          simp at hmb0
        have hpre1 : getCurrentDay s.timeManager ≤ 1 := by omega
        have ha0m : a0.isMobile = false := hc hpre1 a0 ha0 hcomm
        obtain ⟨hx0, hy0, ht0⟩ := hb a0 ha0 ha0m
        refine ⟨?_, ?_, ?_⟩
        · rw [hg.1, hg.2.2.1]
          exact hx0
        · rw [hg.2.1, hg.2.2.2.1]
          exact hy0
        · rw [hg.2.2.2.2.1]
          exact ht0
      · have h2 := activateAgent_day2 _ a0 hge
        rw [h2] at hmb1
        exact absurd hmb1 (by simp)
    · rw [if_neg hdc] at ha1
      exact hb a1 ha1 hmb1
  · intro hday a2 ha2 hcomm
    rw [hA] at ha2
    rcases List.mem_map.mp ha2 with ⟨a1, ha1, rfl⟩
    have hf := moveAgent5_fields move a1
    rw [hf.2.2.1]
    have hcomm1 : a1.communityId ≠ 0 := by
      rw [hf.2.2.2.2.2] at hcomm
      exact hcomm
    have hday' :
        getCurrentDay (updateTimeManager s.timeManager Δ) ≤ 1 := hday
    have hd1 : getCurrentDay (updateTimeManager s.timeManager Δ) = 1 := by
      omega
    by_cases hdc :
        getCurrentDay (updateTimeManager s.timeManager Δ) ≠ s.previousDay
    · rw [if_pos hdc] at ha1
      rcases List.mem_map.mp ha1 with ⟨a0, ha0, rfl⟩
      have hg := activateAgent_fields
        (getCurrentDay (updateTimeManager s.timeManager Δ)) a0
      have hcomm0 : a0.communityId ≠ 0 := by
        rw [hg.2.2.2.2.2.2.1] at hcomm1
        exact hcomm1
      rw [activateAgent_day1 _ a0 hd1]
      simp [hcomm0]
    · rw [if_neg hdc] at ha1
      have hpre1 : getCurrentDay s.timeManager ≤ 1 := by omega
      exact hc hpre1 a1 ha1 hcomm1

theorem sim5Inv_start (s : Sim5State) (h : sim5Inv s) :
    sim5Inv (startSimulation5 s) := by
  obtain ⟨ha, hb, hc, hsc, hst, ht⟩ := h
  have hday1 : 1 ≤ getCurrentDay s.timeManager :=
    getCurrentDay_ge_one _ ht hsc hst
  have hA : (startSimulation5 s).agents =
      s.agents.map (activateAgent (getCurrentDay s.timeManager)) := rfl
  refine ⟨?_, ?_, ?_, hsc, hst, ht⟩
  · intro a1 ha1
    rw [hA] at ha1
    rcases List.mem_map.mp ha1 with ⟨a0, ha0, rfl⟩
    have hg := activateAgent_fields (getCurrentDay s.timeManager) a0
    exact ⟨by rw [hg.2.2.2.2.2.1]; exact (ha a0 ha0).1,
           activateAgent_isActive_true _ _ (ha a0 ha0).2⟩
  · intro a1 ha1 hmb
    rw [hA] at ha1
    rcases List.mem_map.mp ha1 with ⟨a0, ha0, rfl⟩
    have hg := activateAgent_fields (getCurrentDay s.timeManager) a0
    rcases lt_or_le (getCurrentDay s.timeManager) 2 with hlt | hge
    · have hd1 : getCurrentDay s.timeManager = 1 := by omega
      have hmb0 := activateAgent_day1 _ a0 hd1
      rw [hmb] at hmb0
      have hcomm : a0.communityId ≠ 0 := by
        intro hc0
        rw [hc0] at hmb0
        simp at hmb0
      have ha0m : a0.isMobile = false := hc (by omega) a0 ha0 hcomm
      obtain ⟨hx0, hy0, ht0⟩ := hb a0 ha0 ha0m
      refine ⟨?_, ?_, ?_⟩
      · rw [hg.1, hg.2.2.1]
        exact hx0
      · rw [hg.2.1, hg.2.2.2.1]
        exact hy0
      · rw [hg.2.2.2.2.1]
        exact ht0
    · have h2 := activateAgent_day2 _ a0 hge
      rw [h2] at hmb
      exact absurd hmb (by simp)
  · intro hday a1 ha1 hcomm
    rw [hA] at ha1
    rcases List.mem_map.mp ha1 with ⟨a0, ha0, rfl⟩
    have hg := activateAgent_fields (getCurrentDay s.timeManager) a0
    have hd1 : getCurrentDay s.timeManager = 1 := by
      have : getCurrentDay s.timeManager ≤ 1 := hday
      omega
    have hcomm0 : a0.communityId ≠ 0 := by
      rw [hg.2.2.2.2.2.2.1] at hcomm
      exact hcomm
    rw [activateAgent_day1 _ a0 hd1]
    simp [hcomm0]

theorem sim5Inv_reset (s : Sim5State) (h : sim5Inv s) :
    sim5Inv (resetSimulation5 s) := by
  obtain ⟨ha, hb, hc, hsc, hst, ht⟩ := h
  refine ⟨?_, ?_, ?_, hsc, hst, le_refl 0⟩
  · intro a1 ha1
    simp only [resetSimulation5] at ha1
    rcases List.mem_map.mp ha1 with ⟨a0, ha0, rfl⟩
    exact ⟨(ha a0 ha0).1, rfl⟩
  · intro a1 ha1 _
    simp only [resetSimulation5] at ha1
    rcases List.mem_map.mp ha1 with ⟨a0, ha0, rfl⟩
    exact ⟨rfl, rfl, rfl⟩
  · intro _ a1 ha1 _
    simp only [resetSimulation5] at ha1
    rcases List.mem_map.mp ha1 with ⟨a0, ha0, rfl⟩
    rfl

theorem reachable5_inv (pos : ℕ → ℕ → ℚ × ℚ) (s : Sim5State)
    (h : Reachable5 pos s) : sim5Inv s := by
  induction h with
  | init => exact sim5Inv_init pos
  | tick s0 move Δ hΔ _ ih => exact sim5Inv_tick move Δ s0 ih hΔ
  | start s0 _ ih => exact sim5Inv_start s0 ih
  | reset s0 _ ih => exact sim5Inv_reset s0 ih

theorem assignDailyBathroomSchedules_inactive (slotS slotH : ℕ → ℤ) :
    ∀ (agents : List Agent4) (idx j : ℕ),
      ((agents.getD j default).isActive = false) →
      (assignDailyBathroomSchedules slotS slotH idx agents).getD j
        default = agents.getD j default := by
  intro agents
  induction agents with
  | nil =>
    intro idx j _
    rfl
  | cons a rest ih =>
    intro idx j h
    cases j with
    | zero =>
      simp only [List.getD_cons_zero] at h
      simp only [assignDailyBathroomSchedules, List.getD_cons_zero]
      rw [if_pos h]
    | succ j =>
      simp only [List.getD_cons_succ] at h
      simp only [assignDailyBathroomSchedules, List.getD_cons_succ]
      exact ih _ j h

theorem updateAgentMovement4_inactive (move : MoveFun) (hour : ℤ) :
    ∀ (agents : List Agent4) (idx : ℕ) (sw : SchoolWaterBody)
      (cells : List HouseCell) (j : ℕ),
      ((agents.getD j default).isActive = false) →
      (updateAgentMovement4 move hour idx agents sw cells).1.getD j
        default = agents.getD j default := by
  intro agents
  induction agents with
  | nil =>
    intro idx sw cells j _
    rfl
  | cons a rest ih =>
    intro idx sw cells j h
    cases j with
    | zero =>
      simp only [List.getD_cons_zero] at h
      simp only [updateAgentMovement4, List.getD_cons_zero, moveAgent4]
      rw [if_pos h]
    | succ j =>
      simp only [List.getD_cons_succ] at h
      simp only [updateAgentMovement4, List.getD_cons_succ]
      exact ih _ _ _ j h

theorem tick5_agents_length (move : MoveFun) (Δ : ℚ) (s : Sim5State) :
    (tick5 move Δ s).agents.length = s.agents.length := by
  have hA : (tick5 move Δ s).agents =
      (if getCurrentDay (updateTimeManager s.timeManager Δ) ≠
          s.previousDay then
        s.agents.map
          (activateAgent (getCurrentDay (updateTimeManager s.timeManager Δ)))
      else s.agents).map (moveAgent5 move) := rfl
  rw [hA, List.length_map]
  split <;> simp

theorem tick5_getD (move : MoveFun) (Δ : ℚ) (s : Sim5State) (j : ℕ)
    (hj : j < s.agents.length) :
    (tick5 move Δ s).agents.getD j default =
      moveAgent5 move
        (if getCurrentDay (updateTimeManager s.timeManager Δ) ≠
            s.previousDay then
          activateAgent (getCurrentDay (updateTimeManager s.timeManager Δ))
            (s.agents.getD j default)
        else s.agents.getD j default) := by
  have hA : (tick5 move Δ s).agents =
      (if getCurrentDay (updateTimeManager s.timeManager Δ) ≠
          s.previousDay then
        s.agents.map
          (activateAgent (getCurrentDay (updateTimeManager s.timeManager Δ)))
      else s.agents).map (moveAgent5 move) := rfl
  rw [hA]
  by_cases hdc :
      getCurrentDay (updateTimeManager s.timeManager Δ) ≠ s.previousDay
  · rw [if_pos hdc, if_pos hdc,
      getD_map_agent5_lt _ _ j (by rw [List.length_map]; exact hj),
      getD_map_agent5_lt _ _ j hj]
  · rw [if_neg hdc, if_neg hdc, getD_map_agent5_lt _ _ j hj]

/-! ## Claim theorems -/

/-- C1: infection and contamination flags are monotone under every
simulation tick: once an agent's `isInfected` or a water body's
`isContaminated` flag is true, one frame (`tick1` for sim1, `tick4` for
the bathroom-schedule variant of part_000, `tick5` for sim5 — each
composing `updateTimeManager`, `updateAgentMovement` with its
arrival-triggered rule checks, and `updateHouseInfectionState`) leaves it
true, for every movement oracle, schedule oracle and frame delta; sim5's
tick moreover changes no water body and no infection flag at all. -/
theorem infection_flags_monotone :
    (∀ (move : MoveFun) (Δ : ℚ) (s : Sim1State),
       (s.agentInfected = true → (tick1 move Δ s).agentInfected = true)
     ∧ (s.schoolWaterContaminated = true →
         (tick1 move Δ s).schoolWaterContaminated = true)
     ∧ (s.houseCell.isContaminated = true →
         (tick1 move Δ s).houseCell.isContaminated = true))
  ∧ (∀ (move : MoveFun) (slotS slotH : ℕ → ℤ) (Δ : ℚ) (s : Sim4State)
       (j : ℕ),
       ((s.agents.getD j default).isInfected = true →
         ((tick4 move slotS slotH Δ s).agents.getD j
           default).isInfected = true)
     ∧ (s.schoolWaterBody.isContaminated = true →
         (tick4 move slotS slotH Δ s).schoolWaterBody.isContaminated = true)
     ∧ ((s.houseCells.getD j default).isContaminated = true →
         ((tick4 move slotS slotH Δ s).houseCells.getD j
           default).isContaminated = true))
  ∧ (∀ (move : MoveFun) (Δ : ℚ) (s : Sim5State),
       (tick5 move Δ s).waterbodies = s.waterbodies
     ∧ ∀ j : ℕ, ((tick5 move Δ s).agents.getD j default).isInfected =
         ((s.agents.getD j default)).isInfected) := by
  refine ⟨?_, ?_, ?_⟩
  · intro move Δ s
    refine ⟨?_, ?_, ?_⟩
    · intro h
      simp only [tick1]
      exact updateAgentMovement1_infected_mono move s h
    · intro h
      simp only [tick1]
      rw [updateAgentMovement1_school]
      exact h
    · intro h
      simp only [tick1]
      apply updateHouseInfectionState_contaminated_mono
      exact updateAgentMovement1_houseContaminated_mono move s h
  · intro move slotS slotH Δ s j
    refine ⟨?_, ?_, ?_⟩
    · intro h
      simp only [tick4]
      apply updateAgentMovement4_infected_mono
      split
      · rw [assignDailyBathroomSchedules_isInfected]
        exact h
      · exact h
    · intro h
      simp only [tick4]
      exact updateAgentMovement4_school_mono _ _ _ _ _ _ h
    · intro h
      simp only [tick4]
      apply updateHouseInfectionState4_cells_mono
      apply updateAgentMovement4_cells_mono
      exact h
  · intro move Δ s
    refine ⟨rfl, ?_⟩
    intro j
    simp only [tick5]
    rw [map_agent5_isInfected _ (moveAgent5_isInfected move)]
    split
    · exact activateAgent5_isInfected _ _ _
    · rfl

/-- Witness for C1: concrete one-agent states of each variant with all
flags already set keep them set after one frame. -/
theorem infection_flags_monotone_witness :
    ((tick1 moveId 16 sim1AllFlagsState).agentInfected = true
    ∧ (tick1 moveId 16 sim1AllFlagsState).schoolWaterContaminated = true)
  ∧ ((tick4 moveId (fun _ => 12) (fun _ => 20) 16
        sim4OneAgentState).agents.getD 0 default).isInfected = true
  ∧ ((tick5 moveId 0 sim5ArrivalState).waterbodies =
      sim5ArrivalState.waterbodies) := by
  refine ⟨⟨?_, ?_⟩, ?_, ?_⟩
  · exact (infection_flags_monotone.1 moveId 16 sim1AllFlagsState).1 rfl
  · exact (infection_flags_monotone.1 moveId 16 sim1AllFlagsState).2.1 rfl
  · exact (infection_flags_monotone.2.1 moveId (fun _ => 12) (fun _ => 20)
      16 sim4OneAgentState 0).1 rfl
  · exact (infection_flags_monotone.2.2 moveId 0 sim5ArrivalState).1

/-- C2: a house's `isInfected` flag transitions to true exactly when the
accumulated contaminated-exposure time (sum of the per-tick `deltaTime`
values added by `updateHouseInfectionState` while the water body is
contaminated and the house not yet infected) reaches
`houseInfectionDelay = 1500` ms: a single tick infects iff the accumulator
reaches 1500, and over a whole run with nonnegative deltas the house ends
infected iff the total reaches 1500 (so reaching exactly 1500 triggers and
totals of 1499 or less never do). -/
theorem house_infection_threshold :
    (∀ t d : ℚ,
      ((updateHouseInfectionState d ⟨true, t, false⟩).houseInfected = true ↔
        houseInfectionDelay ≤ t + d))
  ∧ (∀ ds : List ℚ, (∀ d ∈ ds, 0 ≤ d) →
      ((houseRun ⟨true, 0, false⟩ ds).houseInfected = true ↔
        houseInfectionDelay ≤ ds.sum)) := by
  constructor
  · intro t d
    simp [updateHouseInfectionState]
  · intro ds hds
    have h := houseRun_infected_iff ds 0 (by norm_num [houseInfectionDelay]) hds
    rwa [zero_add] at h

/-- Witness for C2: with contaminated water and deltas `[800, 700]`
(total exactly 1500 ms) the house ends infected; with `[799, 700]`
(total 1499 ms) it does not. -/
theorem house_infection_threshold_witness :
    (houseRun ⟨true, 0, false⟩ [800, 700]).houseInfected = true
  ∧ (houseRun ⟨true, 0, false⟩ [799, 700]).houseInfected ≠ true := by
  constructor
  · exact (house_infection_threshold.2 [800, 700] (by norm_num)).mpr
      (by norm_num [houseInfectionDelay])
  · intro h
    have h2 := (house_infection_threshold.2 [799, 700] (by norm_num)).mp h
    norm_num [houseInfectionDelay] at h2

/-- C3: a shared (school) water body with configured threshold `k ≥ 1`
becomes contaminated exactly on the arrival event at which the count of
arrivals by infected agents at the still-uncontaminated body reaches `k`
(the iff over every arrival sequence, hence over every initial segment of a run);
arrivals by uninfected agents leave the state unchanged, and arrivals
after contamination change neither the counter nor the flag. -/
theorem school_contamination_threshold :
    (∀ k : ℕ, 1 ≤ k → ∀ events : List Bool,
      ((schoolWaterRun ⟨false, 0, k⟩ events).isContaminated = true ↔
        k ≤ events.count true))
  ∧ (∀ sw : SchoolWaterBody,
      contaminateSchoolWaterbody ("schoolWater") false sw = sw)
  ∧ (∀ (sw : SchoolWaterBody) (lbl : String) (b : Bool),
      sw.isContaminated = true → contaminateSchoolWaterbody lbl b sw = sw) := by
  refine ⟨?_, ?_, ?_⟩
  · intro k hk events
    have h := schoolWaterRun_iff events 0 k (by omega)
    rwa [zero_add] at h
  · intro sw
    unfold contaminateSchoolWaterbody
    rw [if_neg]
    simp
  · intro sw lbl b h
    unfold contaminateSchoolWaterbody
    rw [if_neg]
    simp [h]

/-- Witness for C3: with threshold 3, two infected arrivals leave the
school water body clean and a third contaminates it. -/
theorem school_contamination_threshold_witness :
    (schoolWaterRun ⟨false, 0, 3⟩ [true, true]).isContaminated ≠ true
  ∧ (schoolWaterRun ⟨false, 0, 3⟩ [true, true, true]).isContaminated = true := by
  constructor
  · intro h
    have h2 := (school_contamination_threshold.1 3 (by norm_num)
      [true, true]).mp h
    simp at h2
  · exact (school_contamination_threshold.1 3 (by norm_num)
      [true, true, true]).mpr (by simp)

/-- C4 counterexample: in sim5 an uninfected mobile agent one pixel from
community 0's water body (contaminated since first load) snaps exactly
onto the water body's coordinates on the next frame and is still not
infected afterwards — the claim "arrival at any contaminated water body
infects the agent in every variant" fails (sim5's frame update contains no
infection rule; in sim1-sim4 `checkAgentInfection` likewise fires only for
the label `schoolWater`, never for household water). -/
theorem agent_infection_rule_counterexample :
    (sim5ArrivalState.waterbodies.getD 0 default).isContaminated = true
  ∧ (((tick5 moveId 0 sim5ArrivalState).agents.getD 0 default).x =
      (sim5ArrivalState.waterbodies.getD 0 default).x
    ∧ ((tick5 moveId 0 sim5ArrivalState).agents.getD 0 default).y =
      (sim5ArrivalState.waterbodies.getD 0 default).y)
  ∧ ((tick5 moveId 0 sim5ArrivalState).agents.getD 0
      default).isInfected = false := by
  refine ⟨by norm_num [sim5ArrivalState, sim5InitialWaterbodies,
    communitiesPositions], ?_⟩
  have hev : (tick5 moveId 0 sim5ArrivalState).agents.getD 0 default =
      { travelerToCommunity0 with
          x := 300, y := 200,
          currentLocation := ("visitOtherCommunity"),
          targetLocation := ("house") } := by
    norm_num +decide [tick5, updateTimeManager, getCurrentDay,
      sim5ArrivalState, travelerToCommunity0, moveAgent5, resolveLocation,
      communitiesPositions, moveId, Int.ceil_eq_iff]
  rw [hev]
  norm_num [travelerToCommunity0, sim5ArrivalState,
    sim5InitialWaterbodies, communitiesPositions]

/-- C4 (amended): the arrival-infection rule is the school-water rule
`checkAgentInfection`: an agent arriving at the label `schoolWater` while
the school water body is contaminated has its infection flag set to true,
and the rule never clears an already-true flag; arrivals at other
(household or sim5 community) water bodies do not run this rule. -/
theorem agent_infection_school_rule (l : String) (c b : Bool) :
    (l = ("schoolWater") → c = true → checkAgentInfection l c b = true)
  ∧ (b = true → checkAgentInfection l c b = true) := by
  constructor
  · intro h1 h2
    unfold checkAgentInfection
    rw [if_pos ⟨h1, h2⟩]
  · intro h
    exact checkAgentInfection_mono l c b h

/-- Witness for the amended C4: an uninfected agent arriving at the
contaminated school water body becomes infected. -/
theorem agent_infection_school_rule_witness :
    checkAgentInfection ("schoolWater") true false = true :=
  (agent_infection_school_rule ("schoolWater") true false).1 rfl rfl

/-- C5: movement convergence of the integrator toward a fixed target at
speed `S > 0` from distance `d ≥ 0` (exact-arithmetic reading of
`updateAgentMovement`; `moveStep` is the remaining distance after one
tick, `0` meaning the position has snapped exactly onto the target): each
non-arrival tick shortens the distance by exactly `S`, a tick starting
within distance `S` snaps to the target, the distance never becomes
negative (no overshoot), the target is reached after `⌈d/S⌉` ticks, and
never earlier. -/
theorem movement_convergence (S d : ℚ) (hS : 0 < S) (hd : 0 ≤ d) :
    (S ≤ d → moveStep S d = d - S)
  ∧ (d < S → moveStep S d = 0)
  ∧ (∀ n : ℕ, 0 ≤ (moveStep S)^[n] d)
  ∧ ((moveStep S)^[(⌈d / S⌉).toNat] d = 0)
  ∧ (∀ n : ℕ, (moveStep S)^[n] d = 0 → ⌈d / S⌉ ≤ (n : ℤ)) := by
  have hceil : (0 : ℤ) ≤ ⌈d / S⌉ := Int.ceil_nonneg (div_nonneg hd hS.le)
  have hcast : ((⌈d / S⌉.toNat : ℕ) : ℚ) = ((⌈d / S⌉ : ℤ) : ℚ) := by
    exact_mod_cast Int.toNat_of_nonneg hceil
  refine ⟨?_, ?_, ?_, ?_, ?_⟩
  · intro h
    unfold moveStep
    rw [if_neg (not_lt.mpr h)]
  · intro h
    unfold moveStep
    rw [if_pos h]
  · intro n
    rw [moveStep_iterate S hS n d hd]
    exact le_max_right _ _
  · rw [moveStep_iterate S hS _ d hd]
    have h1 : d / S ≤ ((⌈d / S⌉ : ℤ) : ℚ) := Int.le_ceil _
    have h2 : d ≤ ((⌈d / S⌉ : ℤ) : ℚ) * S := (div_le_iff₀ hS).mp h1
    rw [max_eq_right]
    rw [hcast]
    linarith
  · intro n h
    rw [moveStep_iterate S hS n d hd] at h
    have h1 : d - n * S ≤ 0 := by
      have h2 := le_max_left (d - n * S) 0
      rw [h] at h2
      exact h2
    have h3 : d / S ≤ (n : ℚ) := by
      rw [div_le_iff₀ hS]
      linarith
    exact Int.ceil_le.mpr (by exact_mod_cast h3)

/-- Witness for C5: an agent with speed `1.5` starting `100` px from its
target reaches it in exactly `⌈100/1.5⌉ = 67` ticks, and not in 66. -/
theorem movement_convergence_witness :
    (moveStep (3 / 2))^[67] (100 : ℚ) = 0
  ∧ (moveStep (3 / 2))^[66] (100 : ℚ) ≠ 0 := by
  have hmain := movement_convergence (3 / 2) 100 (by norm_num) (by norm_num)
  have hceil : (⌈(100 : ℚ) / (3 / 2)⌉ : ℤ) = 67 := by
    norm_num [Int.ceil_eq_iff]
  constructor
  · have h4 := hmain.2.2.2.1
    rw [hceil] at h4
    exact h4
  · intro h0
    have h5 := hmain.2.2.2.2 66 h0
    rw [hceil] at h5
    exact absurd h5 (by norm_num)

/-- C7: an agent that is inactive, or immobile in the variant with
mobility, does not move during a tick: in every reachable sim5 state an
agent with `isActive = false` or `isMobile = false` at the start of a
frame has the same position after `tick5` (even on a day-change frame
that re-mobilizes it, since reachable immobile agents sit at their house,
which the movement step snaps back onto); in sim4 an inactive agent's
whole record is untouched by `tick4`. -/
theorem inactive_agents_position_unchanged :
    (∀ (pos : ℕ → ℕ → ℚ × ℚ) (s : Sim5State), Reachable5 pos s →
      ∀ (move : MoveFun) (Δ : ℚ) (j : ℕ),
        ((s.agents.getD j default).isActive = false ∨
          (s.agents.getD j default).isMobile = false) →
        ((tick5 move Δ s).agents.getD j default).x =
          (s.agents.getD j default).x
      ∧ ((tick5 move Δ s).agents.getD j default).y =
          (s.agents.getD j default).y)
  ∧ (∀ (move : MoveFun) (slotS slotH : ℕ → ℤ) (Δ : ℚ) (s : Sim4State)
      (j : ℕ), (s.agents.getD j default).isActive = false →
      (tick4 move slotS slotH Δ s).agents.getD j default =
        s.agents.getD j default) := by
  constructor
  · intro pos s hr move Δ j hj
    obtain ⟨ha, hb, hc, hsc, hst, ht⟩ := reachable5_inv pos s hr
    by_cases hjl : j < s.agents.length
    · have hmem : s.agents.getD j default ∈ s.agents :=
        getD_mem_agent5 _ j hjl
      have hact : (s.agents.getD j default).isActive = true :=
        (ha _ hmem).2
      have himm : (s.agents.getD j default).isMobile = false := by
        rcases hj with h1 | h2
        · rw [hact] at h1
          exact absurd h1 (by simp)
        · exact h2
      obtain ⟨hx0, hy0, ht0⟩ := hb _ hmem himm
      have hsp : (s.agents.getD j default).speed = 3 / 2 := (ha _ hmem).1
      rw [tick5_getD move Δ s j hjl]
      by_cases hdc :
          getCurrentDay (updateTimeManager s.timeManager Δ) ≠
            s.previousDay
      · rw [if_pos hdc]
        have hg := activateAgent_fields
          (getCurrentDay (updateTimeManager s.timeManager Δ))
          (s.agents.getD j default)
        by_cases hmob :
            (activateAgent (getCurrentDay (updateTimeManager s.timeManager
              Δ)) (s.agents.getD j default)).isMobile = true
        · have hath := moveAgent5_at_home move _
            (by rw [hg.1, hg.2.2.1]; exact hx0)
            (by rw [hg.2.1, hg.2.2.2.1]; exact hy0)
            (by rw [hg.2.2.2.2.1]; exact ht0)
            (by rw [hg.2.2.2.2.2.1]; exact hsp)
          exact ⟨by rw [hath.1, hg.1], by rw [hath.2, hg.2.1]⟩
        · have hmb2 :
              (activateAgent (getCurrentDay (updateTimeManager
                s.timeManager Δ)) (s.agents.getD j
                default)).isMobile = false := by
            simpa using hmob
          rw [moveAgent5_immobile move _ (Or.inr hmb2)]
          exact ⟨hg.1, hg.2.1⟩
      · rw [if_neg hdc]
        rw [moveAgent5_immobile move _ (Or.inr himm)]
        exact ⟨rfl, rfl⟩
    · have hlen := tick5_agents_length move Δ s
      have h1 : (tick5 move Δ s).agents.getD j default = default := by
        apply List.getD_eq_default
        omega
      have h2 : s.agents.getD j default = default := by
        apply List.getD_eq_default
        omega
      rw [h1, h2]
      exact ⟨rfl, rfl⟩
  · intro move slotS slotH Δ s j h
    simp only [tick4]
    by_cases hdc :
        (updateTimeManager s.timeManager Δ).currentDay ≠ s.previousDay
    · rw [if_pos hdc]
      have h0 := assignDailyBathroomSchedules_inactive slotS slotH
        s.agents 0 j h
      rw [updateAgentMovement4_inactive move _ _ _ _ _ j (by rw [h0]; exact h)]
      exact h0
    · rw [if_neg hdc]
      exact updateAgentMovement4_inactive move _ _ _ _ _ j h

/-- Witness for C7: in the initial sim5 state every agent is immobile and
agent 0 keeps its position over a frame; an inactive sim4 agent's record
is untouched by a frame. -/
theorem inactive_agents_position_unchanged_witness :
    (((tick5 moveId 16 (sim5InitialState posZero)).agents.getD 0
        default).x = ((sim5InitialState posZero).agents.getD 0 default).x)
  ∧ ((tick4 moveId (fun _ => 12) (fun _ => 20) 16
        sim4InactiveState).agents.getD 0 default =
      sim4InactiveState.agents.getD 0 default) :=
  ⟨(inactive_agents_position_unchanged.1 posZero _ (Reachable5.init)
      moveId 16 0 (Or.inr rfl)).1,
   inactive_agents_position_unchanged.2 moveId (fun _ => 12)
     (fun _ => 20) 16 sim4InactiveState 0 rfl⟩

/-- C8: for nonnegative `currentSimulationTime`, `timeScale` and
`scheduleStartTime`, `getCurrentHour` equals
`⌊currentSimulationTime * timeScale + scheduleStartTime⌋ mod 24` (the JS
`%` coincides with the Euclidean mod on these inputs) and always lies in
`[0, 23]`, wrapping at 24. -/
theorem current_hour_spec (tm : TimeManager)
    (ht : 0 ≤ tm.currentSimulationTime) (hs : 0 ≤ tm.timeScale)
    (hb : 0 ≤ tm.scheduleStartTime) :
    getCurrentHour tm =
      ⌊tm.currentSimulationTime * tm.timeScale + tm.scheduleStartTime⌋ % 24
  ∧ 0 ≤ getCurrentHour tm ∧ getCurrentHour tm ≤ 23 := by
  have hfl : (0 : ℤ) ≤
      ⌊tm.currentSimulationTime * tm.timeScale + tm.scheduleStartTime⌋ := by
    apply Int.floor_nonneg.mpr
    have := mul_nonneg ht hs
    linarith
  have heq : getCurrentHour tm =
      ⌊tm.currentSimulationTime * tm.timeScale + tm.scheduleStartTime⌋ % 24 := by
    unfold getCurrentHour jsRem
    exact Int.tmod_eq_emod hfl (by norm_num)
  refine ⟨heq, ?_, ?_⟩
  · rw [heq]
    exact Int.emod_nonneg _ (by norm_num)
  · rw [heq]
    have := Int.emod_lt_of_pos
      ⌊tm.currentSimulationTime * tm.timeScale + tm.scheduleStartTime⌋
      (b := 24) (by norm_num)
    omega

/-- Witness for C8: with `scheduleStartTime = 8`, `timeScale = 2` and
`currentSimulationTime = 33/4` s, elapsed simulated time is `16.5` hours,
the total is `24.5` and the hour wraps to `⌊24.5⌋ mod 24 = 0`. -/
theorem current_hour_spec_witness :
    getCurrentHour ⟨8, 33 / 4, 2, 0⟩ = 0
  ∧ 0 ≤ getCurrentHour ⟨8, 33 / 4, 2, 0⟩
  ∧ getCurrentHour ⟨8, 33 / 4, 2, 0⟩ ≤ 23 :=
  ⟨by
    have h : getCurrentHour ⟨8, 33 / 4, 2, 0⟩ = jsRem 24 24 := by
      unfold getCurrentHour
      norm_num [Int.floor_eq_iff]
    rw [h]
    decide,
   (current_hour_spec ⟨8, 33 / 4, 2, 0⟩ (by norm_num) (by norm_num)
     (by norm_num)).2⟩

/-- C6 (code bug in sim1's reset): `resetSimulation` misspells the
accumulator field — it assigns `houseWaterBody.contaminationTime = 0`
while the field read and written by every other line of sim1 is
`contaminatedTime` — so resetting a state whose house water body has
accumulated 1600 ms leaves the accumulator at 1600 instead of the
first-load value 0, and the post-reset state is not the first-load
state. -/
theorem sim1_reset_retains_accumulator :
    (resetSimulation1
      sim1ContaminatedRunState).houseCell.contaminatedTime = 1600
  ∧ initialSim1State.houseCell.contaminatedTime = 0
  ∧ resetSimulation1 sim1ContaminatedRunState ≠ initialSim1State := by
  refine ⟨rfl, rfl, ?_⟩
  intro h
  have h2 := congrArg (fun st => st.houseCell.contaminatedTime) h
  simp only [resetSimulation1, sim1ContaminatedRunState,
    initialSim1State] at h2
  norm_num at h2

/-- C10: in sim5 the `waterbodies` array is frozen: in every reachable
state it equals its first-load value (community 0 contaminated, all
others clean, threshold 3) and every agent is uninfected; moreover no
frame operation reads the water bodies at all — `tick5`, `start` and
`reset` commute with an arbitrary rewrite of the array (in particular
`contaminationThreshold` is never read). -/
theorem sim5_state_frozen :
    (∀ (pos : ℕ → ℕ → ℚ × ℚ) (s : Sim5State), Reachable5 pos s →
      s.waterbodies = sim5InitialWaterbodies
    ∧ ∀ a ∈ s.agents, a.isInfected = false)
  ∧ ((sim5InitialWaterbodies.getD 0 default).isContaminated = true)
  ∧ (∀ j : ℕ, 1 ≤ j →
      (sim5InitialWaterbodies.getD j default).isContaminated = false)
  ∧ (∀ (f : WaterBody5 → WaterBody5) (move : MoveFun) (Δ : ℚ)
      (s : Sim5State),
      tick5 move Δ (mapWaterbodies f s) = mapWaterbodies f (tick5 move Δ s))
  ∧ (∀ (f : WaterBody5 → WaterBody5) (s : Sim5State),
      startSimulation5 (mapWaterbodies f s) =
        mapWaterbodies f (startSimulation5 s))
  ∧ (∀ (f : WaterBody5 → WaterBody5) (s : Sim5State),
      resetSimulation5 (mapWaterbodies f s) =
        mapWaterbodies f (resetSimulation5 s)) := by
  refine ⟨?_, rfl, ?_, fun f move Δ s => rfl, fun f s => rfl,
    fun f s => rfl⟩
  · intro pos s hr
    induction hr with
    | init =>
      refine ⟨rfl, ?_⟩
      intro a ha
      exact (sim5InitialAgents_mem pos a ha).2.2.2.2.2.2
    | tick s0 move Δ hΔ _ ih =>
      refine ⟨ih.1, ?_⟩
      intro a2 ha2
      have hA : (tick5 move Δ s0).agents =
          (if getCurrentDay (updateTimeManager s0.timeManager Δ) ≠
              s0.previousDay then
            s0.agents.map (activateAgent
              (getCurrentDay (updateTimeManager s0.timeManager Δ)))
          else s0.agents).map (moveAgent5 move) := rfl
      rw [hA] at ha2
      rcases List.mem_map.mp ha2 with ⟨a1, ha1, rfl⟩
      rw [moveAgent5_isInfected]
      by_cases hdc :
          getCurrentDay (updateTimeManager s0.timeManager Δ) ≠
            s0.previousDay
      · rw [if_pos hdc] at ha1
        rcases List.mem_map.mp ha1 with ⟨a0, ha0, rfl⟩
        rw [(activateAgent_fields _ a0).2.2.2.2.2.2.2]
        exact ih.2 a0 ha0
      · rw [if_neg hdc] at ha1
        exact ih.2 a1 ha1
    | start s0 _ ih =>
      refine ⟨ih.1, ?_⟩
      intro a1 ha1
      rcases List.mem_map.mp ha1 with ⟨a0, ha0, rfl⟩
      rw [(activateAgent_fields _ a0).2.2.2.2.2.2.2]
      exact ih.2 a0 ha0
    | reset s0 _ ih =>
      refine ⟨ih.1, ?_⟩
      intro a1 ha1
      simp only [resetSimulation5] at ha1
      rcases List.mem_map.mp ha1 with ⟨a0, ha0, rfl⟩
      rfl
  · intro j hj
    rcases j with _ | _ | _ | _ | _ | _ | _ | j
    · omega
    · rfl
    · rfl
    · rfl
    · rfl
    · rfl
    · rfl
    · have hlen : sim5InitialWaterbodies.length = 7 := rfl
      rw [List.getD_eq_default]
      · rfl
      · omega

/-- Witness for C10: the first-load state itself, reached by
`Reachable5.init`, has the frozen water bodies and no infected agent. -/
theorem sim5_state_frozen_witness :
    (sim5InitialState posZero).waterbodies = sim5InitialWaterbodies
  ∧ ∀ a ∈ (sim5InitialState posZero).agents, a.isInfected = false :=
  sim5_state_frozen.1 posZero _ (Reachable5.init)

/-- C9: location-label resolution is total and never errors: any label
outside the recognized set falls back to the school coordinates in
sim1's `resolveItinerary` (sim2/sim3/sim4's indexed `resolveItinerary4`
behaves identically), and to the agent's own house coordinates in sim5's
`resolveLocation`. -/
theorem location_resolution_defaults :
    (∀ s : String, s ≠ ("school") → s ≠ ("schoolWater") → s ≠ ("house") →
      s ≠ ("houseWater") → resolveItinerary s = (300, 200))
  ∧ (∀ (s : String) (i : ℕ), s ≠ ("school") → s ≠ ("schoolWater") →
      s ≠ ("house") → s ≠ ("houseWater") → resolveItinerary4 s i = (300, 200))
  ∧ (∀ (s : String) (a : Agent5), s ≠ ("house") →
      s ≠ ("visitOtherCommunity") →
      resolveLocation s a = (a.houseX, a.houseY)) := by
  refine ⟨?_, ?_, ?_⟩
  · intro s h1 h2 h3 h4
    simp [resolveItinerary, h1, h2, h3, h4]
  · intro s i h1 h2 h3 h4
    simp [resolveItinerary4, h1, h2, h3, h4]
  · intro s a h1 h2
    simp [resolveLocation, h1, h2]

/-- Witness for C9: the unknown label `bogus` resolves to the school in
sim1/sim4 and to the agent's house in sim5. -/
theorem location_resolution_defaults_witness :
    resolveItinerary ("bogus") = (300, 200)
  ∧ resolveItinerary4 ("bogus") 5 = (300, 200)
  ∧ resolveLocation ("bogus") (default : Agent5) =
      ((default : Agent5).houseX, (default : Agent5).houseY) :=
  ⟨location_resolution_defaults.1 ("bogus") (by decide) (by decide)
     (by decide) (by decide),
   location_resolution_defaults.2.1 ("bogus") 5 (by decide) (by decide)
     (by decide) (by decide),
   location_resolution_defaults.2.2 ("bogus") default (by decide)
     (by decide)⟩

end Cholera
